import Mathlib

/-!
# go-geos: geometry constructors, coordinate sequences, predicates

Shallow embedding of `geom.go` and `coordseq.go`.  The GEOS C library is an
external collaborator: it is a parameter `E : Engine σ` over an arbitrary
engine state `σ`.  Every `C.GEOS..._r` call of the source goes through a
wrapper that applies the engine function and appends the call, with the
arguments it received, to the call log of the `World`.  `runtime.SetFinalizer`
appends the registered finalizer to the world.

The context handle `ctxHandle`, the same first argument of every call, is left
out of the call arguments.

Machine integers: Go `int` is 64 bits wide (amd64, arm64) and is modelled by
`Int`, or by `Nat` for a length or a counter; the cgo conversions `C.uint(x)`
and `C.int(x)` are the explicit 32-bit truncations `cUint` and `cInt`.
A `float64` is its IEEE-754 binary64 bit fields; the comparisons are the
IEEE ones (false as soon as an operand is NaN, `-0 = +0`).

A `*Geometry` or `*coordSequence` that may be nil is an `Option`; a function
that may dereference a nil pointer returns a `Res`, whose `panic` is the Go
run-time panic.
-/

namespace Geos

/-! ## float64 -/

/-- An IEEE-754 binary64 value: sign bit, 11-bit biased exponent, 52-bit fraction. -/
structure Float64 where
  sign : Bool
  exp : Nat
  frac : Nat
  hexp : exp < 2048
  hfrac : frac < 4503599627370496
deriving DecidableEq

namespace Float64

/-- NaN: exponent all ones and a non-zero fraction. -/
def isNaN (a : Float64) : Bool := a.exp == 2047 && a.frac != 0

/-- Magnitude bits `exp * 2^52 + frac`; on non-NaN values their order is the order of `|a|`. -/
def mag (a : Float64) : Nat := a.exp * 4503599627370496 + a.frac

/-- Signed magnitude; on non-NaN values its order is the order of the values, `-0` and `+0` coincide. -/
def key (a : Float64) : Int := if a.sign then -(a.mag : Int) else (a.mag : Int)

/-- IEEE `a < b`. -/
def lt (a b : Float64) : Bool := !a.isNaN && !b.isNaN && decide (a.key < b.key)

/-- IEEE `a <= b`. -/
def le (a b : Float64) : Bool := !a.isNaN && !b.isNaN && decide (a.key ≤ b.key)

/-- IEEE `a > b`. -/
def gt (a b : Float64) : Bool := lt b a

/-- The constant `0` (`+0.0`). -/
def zero : Float64 := ⟨false, 0, 0, by decide, by decide⟩

/-- The constant `1`. -/
def one : Float64 := ⟨false, 1023, 0, by decide, by decide⟩

/-- The constant `1.5`. -/
def onePointFive : Float64 := ⟨false, 1023, 2251799813685248, by decide, by decide⟩

/-- The constant `-1`. -/
def negOne : Float64 := ⟨true, 1023, 0, by decide, by decide⟩

/-- The constant `5`. -/
def five : Float64 := ⟨false, 1025, 1125899906842624, by decide, by decide⟩

/-- The constant `10`. -/
def ten : Float64 := ⟨false, 1026, 1125899906842624, by decide, by decide⟩

/-- Go `math.SmallestNonzeroFloat64`, the denormal `2^-1074` (bit pattern 1). -/
def SmallestNonzeroFloat64 : Float64 := ⟨false, 0, 1, by decide, by decide⟩

/-- Positive infinity. -/
def posInf : Float64 := ⟨false, 2047, 0, by decide, by decide⟩

/-- Negative infinity. -/
def negInf : Float64 := ⟨true, 2047, 0, by decide, by decide⟩

/-- A quiet NaN. -/
def nan : Float64 := ⟨false, 2047, 2251799813685248, by decide, by decide⟩

end Float64

/-! ## machine integers and handles -/

/-- The cgo conversion `C.uint(x)` of a Go `int`: truncation to 32 bits, unsigned. -/
def cUint (x : Int) : Nat := (x % 4294967296).toNat

/-- The cgo conversion `C.int(x)` of a Go `int`: truncation to 32 bits, signed. -/
def cInt (x : Int) : Int := (x + 2147483648) % 4294967296 - 2147483648

/-- An engine handle (`*C.GEOSGeometry`, `*C.GEOSCoordSequence`); `0` is the null pointer. -/
abbrev Ptr := Nat

/-- Go `type GeometryType int`. -/
abbrev GeometryType := Int

/-- Constant `C.GEOS_POINT`. -/
def POINT : GeometryType := 0
/-- Constant `C.GEOS_LINESTRING`. -/
def LINESTRING : GeometryType := 1
/-- Constant `C.GEOS_LINEARRING`. -/
def LINEARRING : GeometryType := 2
/-- Constant `C.GEOS_POLYGON`. -/
def POLYGON : GeometryType := 3
/-- Constant `C.GEOS_MULTIPOINT`. -/
def MULTIPOINT : GeometryType := 4
/-- Constant `C.GEOS_MULTILINESTRING`. -/
def MULTILINESTRING : GeometryType := 5
/-- Constant `C.GEOS_MULTIPOLYGON`. -/
def MULTIPOLYGON : GeometryType := 6
/-- Constant `C.GEOS_GEOMETRYCOLLECTION`. -/
def GEOMETRYCOLLECTION : GeometryType := 7

/-- Modelled from the spec: the type `Coord` is declared outside the two source
files; a 2D coordinate `{X, Y}`. -/
structure Coord where
  X : Float64
  Y : Float64
deriving DecidableEq

/-- Modelled from the spec: the type `CoordZ` is declared outside the two source
files; a 3D coordinate `{X, Y, Z}`. -/
structure CoordZ where
  X : Float64
  Y : Float64
  Z : Float64
deriving DecidableEq

/-- Go `type Geometry struct { c *C.GEOSGeometry }` (a non-nil `*Geometry`). -/
structure Geometry where
  c : Ptr
deriving DecidableEq

/-- Go `type coordSequence struct { c *C.GEOSCoordSequence }` (a non-nil `*coordSequence`). -/
structure coordSequence where
  c : Ptr
deriving DecidableEq

/-! ## the engine and the world -/

/-- One call into the engine, with the arguments it received. -/
inductive Call where
  | GEOSCoordSeq_create_r (size dims : Nat)
  | GEOSCoordSeq_getSize_r (s : Ptr)
  | GEOSCoordSeq_setX_r (s : Ptr) (idx : Nat) (val : Float64)
  | GEOSCoordSeq_setY_r (s : Ptr) (idx : Nat) (val : Float64)
  | GEOSCoordSeq_setZ_r (s : Ptr) (idx : Nat) (val : Float64)
  | GEOSCoordSeq_getX_r (s : Ptr) (idx : Nat)
  | GEOSCoordSeq_getY_r (s : Ptr) (idx : Nat)
  | GEOSCoordSeq_getZ_r (s : Ptr) (idx : Nat)
  | GEOSGeomTypeId_r (g : Ptr)
  | GEOSGeom_createPoint_r (s : Ptr)
  | GEOSGeom_createLinearRing_r (s : Ptr)
  | GEOSGeom_createLineString_r (s : Ptr)
  | GEOSGeom_createPolygon_r (shell : Ptr) (holes : List Ptr) (nholes : Nat)
  | GEOSGeom_createCollection_r (type : Int) (geoms : List Ptr) (ngeoms : Nat)
  | GEOSHausdorffDistanceDensify_r (g1 g2 : Ptr) (densifyFrac : Float64)
  | GEOSDisjoint_r (g1 g2 : Ptr)
  | GEOSTouches_r (g1 g2 : Ptr)
  | GEOSIntersects_r (g1 g2 : Ptr)
  | GEOSCrosses_r (g1 g2 : Ptr)
  | GEOSWithin_r (g1 g2 : Ptr)
  | GEOSContains_r (g1 g2 : Ptr)
  | GEOSOverlaps_r (g1 g2 : Ptr)
  | GEOSEquals_r (g1 g2 : Ptr)
  | GEOSEqualsExact_r (g1 g2 : Ptr) (tol : Float64)
  | GEOSCovers_r (g1 g2 : Ptr)
  | GEOSCoveredBy_r (g1 g2 : Ptr)
deriving DecidableEq

/-- The GEOS C API as far as the modelled functions use it, over an engine state `σ`.
A creating or writing call returns the new engine state; a reading call does not
change it.  An output parameter `&val` is handed over holding `0`; the engine
function returns what the variable holds after the call.  An array argument
(pointer to the first element, nil for an empty slice) is the list of the
slice's elements, next to the count that is passed. -/
structure Engine (σ : Type) where
  GEOSCoordSeq_create_r : σ → Nat → Nat → Ptr × σ
  GEOSCoordSeq_getSize_r : σ → Ptr → Nat
  GEOSCoordSeq_setX_r : σ → Ptr → Nat → Float64 → σ
  GEOSCoordSeq_setY_r : σ → Ptr → Nat → Float64 → σ
  GEOSCoordSeq_setZ_r : σ → Ptr → Nat → Float64 → σ
  GEOSCoordSeq_getX_r : σ → Ptr → Nat → Int × Float64
  GEOSCoordSeq_getY_r : σ → Ptr → Nat → Int × Float64
  GEOSCoordSeq_getZ_r : σ → Ptr → Nat → Int × Float64
  GEOSGeomTypeId_r : σ → Ptr → Int
  GEOSGeom_createPoint_r : σ → Ptr → Ptr × σ
  GEOSGeom_createLinearRing_r : σ → Ptr → Ptr × σ
  GEOSGeom_createLineString_r : σ → Ptr → Ptr × σ
  GEOSGeom_createPolygon_r : σ → Ptr → List Ptr → Nat → Ptr × σ
  GEOSGeom_createCollection_r : σ → Int → List Ptr → Nat → Ptr × σ
  GEOSHausdorffDistanceDensify_r : σ → Ptr → Ptr → Float64 → Float64
  GEOSDisjoint_r : σ → Ptr → Ptr → Int
  GEOSTouches_r : σ → Ptr → Ptr → Int
  GEOSIntersects_r : σ → Ptr → Ptr → Int
  GEOSCrosses_r : σ → Ptr → Ptr → Int
  GEOSWithin_r : σ → Ptr → Ptr → Int
  GEOSContains_r : σ → Ptr → Ptr → Int
  GEOSOverlaps_r : σ → Ptr → Ptr → Int
  GEOSEquals_r : σ → Ptr → Ptr → Int
  GEOSEqualsExact_r : σ → Ptr → Ptr → Float64 → Int
  GEOSCovers_r : σ → Ptr → Ptr → Int
  GEOSCoveredBy_r : σ → Ptr → Ptr → Int

/-- A finalizer registered with `runtime.SetFinalizer`: the engine release it performs. -/
inductive Finalizer where
  | GEOSGeom_destroy_r (c : Ptr)
  | GEOSCoordSeq_destroy_r (c : Ptr)
deriving DecidableEq

/-- The state a Go function runs in: engine state, the engine calls made so far
(oldest first) and the finalizers registered so far. -/
structure World (σ : Type) where
  eng : σ
  calls : List Call
  finalizers : List Finalizer

/-- Record a call. -/
def World.log {σ : Type} (w : World σ) (c : Call) : World σ :=
  { w with calls := w.calls ++ [c] }

/-- Record a call that changes the engine state. -/
def World.step {σ : Type} (w : World σ) (c : Call) (e : σ) : World σ :=
  { eng := e, calls := w.calls ++ [c], finalizers := w.finalizers }

/-- Result of a Go function that may panic on a nil pointer dereference. -/
inductive Res (σ α : Type) where
  | panic : Res σ α
  | ok : α → World σ → Res σ α

/-! ## geom.go: metrics -/

/-- Go `func (g *Geometry) HausdorffDistanceDensify(g2 *Geometry, densifyFrac float64) float64`. -/
def Geometry.HausdorffDistanceDensify {σ : Type} (E : Engine σ) (g g2 : Geometry)
    (densifyFrac : Float64) (w : World σ) : Float64 × World σ :=
  let densifyFrac :=
    if Float64.gt densifyFrac Float64.one then Float64.one
    else if Float64.le densifyFrac Float64.zero then Float64.SmallestNonzeroFloat64
    else densifyFrac
  let val := E.GEOSHausdorffDistanceDensify_r w.eng g.c g2.c densifyFrac
  (val, w.log (Call.GEOSHausdorffDistanceDensify_r g.c g2.c densifyFrac))


/-! ## coordseq.go -/

/-- Go `func (s *coordSequence) getSize() int`: the return code is dropped, the
output variable is converted with `int(size)`. -/
def coordSequence.getSize {σ : Type} (E : Engine σ) (s : coordSequence) (w : World σ) :
    Nat × World σ :=
  let size := E.GEOSCoordSeq_getSize_r w.eng s.c
  (size, w.log (Call.GEOSCoordSeq_getSize_r s.c))

/-- Go `func (s *coordSequence) setX(idx int, val float64)`. -/
def coordSequence.setX {σ : Type} (E : Engine σ) (s : coordSequence) (idx : Int)
    (val : Float64) (w : World σ) : World σ :=
  w.step (Call.GEOSCoordSeq_setX_r s.c (cUint idx) val)
    (E.GEOSCoordSeq_setX_r w.eng s.c (cUint idx) val)

/-- Go `func (s *coordSequence) setY(idx int, val float64)`. -/
def coordSequence.setY {σ : Type} (E : Engine σ) (s : coordSequence) (idx : Int)
    (val : Float64) (w : World σ) : World σ :=
  w.step (Call.GEOSCoordSeq_setY_r s.c (cUint idx) val)
    (E.GEOSCoordSeq_setY_r w.eng s.c (cUint idx) val)

/-- Go `func (s *coordSequence) setZ(idx int, val float64)`. -/
def coordSequence.setZ {σ : Type} (E : Engine σ) (s : coordSequence) (idx : Int)
    (val : Float64) (w : World σ) : World σ :=
  w.step (Call.GEOSCoordSeq_setZ_r s.c (cUint idx) val)
    (E.GEOSCoordSeq_setZ_r w.eng s.c (cUint idx) val)

/-- Go `func (s *coordSequence) getX(idx int) float64`. -/
def coordSequence.getX {σ : Type} (E : Engine σ) (s : coordSequence) (idx : Int)
    (w : World σ) : Float64 × World σ :=
  let r := E.GEOSCoordSeq_getX_r w.eng s.c (cUint idx)
  let w1 := w.log (Call.GEOSCoordSeq_getX_r s.c (cUint idx))
  if r.1 = 0 then (Float64.zero, w1) else (r.2, w1)

/-- Go `func (s *coordSequence) getY(idx int) float64`. -/
def coordSequence.getY {σ : Type} (E : Engine σ) (s : coordSequence) (idx : Int)
    (w : World σ) : Float64 × World σ :=
  let r := E.GEOSCoordSeq_getY_r w.eng s.c (cUint idx)
  let w1 := w.log (Call.GEOSCoordSeq_getY_r s.c (cUint idx))
  if r.1 = 0 then (Float64.zero, w1) else (r.2, w1)

/-- Go `func (s *coordSequence) getZ(idx int) float64`. -/
def coordSequence.getZ {σ : Type} (E : Engine σ) (s : coordSequence) (idx : Int)
    (w : World σ) : Float64 × World σ :=
  let r := E.GEOSCoordSeq_getZ_r w.eng s.c (cUint idx)
  let w1 := w.log (Call.GEOSCoordSeq_getZ_r s.c (cUint idx))
  if r.1 = 0 then (Float64.zero, w1) else (r.2, w1)

/-- The loop `for i := 0; i < count; i++` of `toCoords`, with `k = count - i`
iterations left. -/
def coordSequence.toCoordsLoop {σ : Type} (E : Engine σ) (s : coordSequence) :
    Nat → Nat → List Coord → World σ → List Coord × World σ
  | 0, _, coords, w => (coords, w)
  | k + 1, i, coords, w =>
    let rx := s.getX E (i : Int) w
    let ry := s.getY E (i : Int) rx.2
    coordSequence.toCoordsLoop E s k (i + 1) (coords ++ [Coord.mk rx.1 ry.1]) ry.2

/-- Go `func (s *coordSequence) toCoords() []Coord`. -/
def coordSequence.toCoords {σ : Type} (E : Engine σ) (s : coordSequence) (w : World σ) :
    List Coord × World σ :=
  let r := s.getSize E w
  coordSequence.toCoordsLoop E s r.1 0 [] r.2

/-- The loop `for i := 0; i < count; i++` of `toCoordZs`, with `k = count - i`
iterations left. -/
def coordSequence.toCoordZsLoop {σ : Type} (E : Engine σ) (s : coordSequence) :
    Nat → Nat → List CoordZ → World σ → List CoordZ × World σ
  | 0, _, coords, w => (coords, w)
  | k + 1, i, coords, w =>
    let rx := s.getX E (i : Int) w
    let ry := s.getY E (i : Int) rx.2
    let rz := s.getZ E (i : Int) ry.2
    coordSequence.toCoordZsLoop E s k (i + 1) (coords ++ [CoordZ.mk rx.1 ry.1 rz.1]) rz.2

/-- Go `func (s *coordSequence) toCoordZs() []CoordZ`. -/
def coordSequence.toCoordZs {σ : Type} (E : Engine σ) (s : coordSequence) (w : World σ) :
    List CoordZ × World σ :=
  let r := s.getSize E w
  coordSequence.toCoordZsLoop E s r.1 0 [] r.2

/-- Go `func coordSeqFromC(c *C.GEOSCoordSequence) *coordSequence`: wraps the handle
and registers the finalizer that destroys it. -/
def coordSeqFromC {σ : Type} (c : Ptr) (w : World σ) : coordSequence × World σ :=
  (coordSequence.mk c,
    { w with finalizers := w.finalizers ++ [Finalizer.GEOSCoordSeq_destroy_r c] })

/-- Go `func createCoordSeq(size, dims int) *coordSequence`; `none` is the nil pointer. -/
def createCoordSeq {σ : Type} (E : Engine σ) (size dims : Int) (w : World σ) :
    Option coordSequence × World σ :=
  let r := E.GEOSCoordSeq_create_r w.eng (cUint size) (cUint dims)
  let w1 := w.step (Call.GEOSCoordSeq_create_r (cUint size) (cUint dims)) r.2
  if r.1 = 0 then (none, w1)
  else
    let q := coordSeqFromC r.1 w1
    (some q.1, q.2)

/-- The loop `for i := 0; i < size; i++` of `coordSeqFromCoords` over the
remaining elements `coords[i:]`; a method call on the nil `coordSeq`
dereferences `s.c` and panics. -/
def coordSeqFromCoordsLoop {σ : Type} (E : Engine σ) (coordSeq : Option coordSequence) :
    Nat → List Coord → World σ → Res σ Unit
  | _, [], w => Res.ok () w
  | i, coord :: rest, w =>
    match coordSeq with
    | none => Res.panic
    | some s =>
      let w1 := s.setX E (i : Int) coord.X w
      let w2 := s.setY E (i : Int) coord.Y w1
      coordSeqFromCoordsLoop E coordSeq (i + 1) rest w2

/-- Go `func coordSeqFromCoords(coords []Coord) *coordSequence`. -/
def coordSeqFromCoords {σ : Type} (E : Engine σ) (coords : List Coord) (w : World σ) :
    Res σ (Option coordSequence) :=
  let size : Int := (coords.length : Int)
  let r := createCoordSeq E size 2 w
  match coordSeqFromCoordsLoop E r.1 0 coords r.2 with
  | Res.panic => Res.panic
  | Res.ok _ w1 => Res.ok r.1 w1

/-- The loop of `coordSeqFromCoordZs` over the remaining elements `coords[i:]`. -/
def coordSeqFromCoordZsLoop {σ : Type} (E : Engine σ) (coordSeq : Option coordSequence) :
    Nat → List CoordZ → World σ → Res σ Unit
  | _, [], w => Res.ok () w
  | i, coord :: rest, w =>
    match coordSeq with
    | none => Res.panic
    | some s =>
      let w1 := s.setX E (i : Int) coord.X w
      let w2 := s.setY E (i : Int) coord.Y w1
      let w3 := s.setZ E (i : Int) coord.Z w2
      coordSeqFromCoordZsLoop E coordSeq (i + 1) rest w3

/-- Go `func coordSeqFromCoordZs(coords []CoordZ) *coordSequence`. -/
def coordSeqFromCoordZs {σ : Type} (E : Engine σ) (coords : List CoordZ) (w : World σ) :
    Res σ (Option coordSequence) :=
  let size : Int := (coords.length : Int)
  let r := createCoordSeq E size 3 w
  match coordSeqFromCoordZsLoop E r.1 0 coords r.2 with
  | Res.panic => Res.panic
  | Res.ok _ w1 => Res.ok r.1 w1

/-! ## geom.go: constructors -/

/-- Go `func geomFromC(c *C.GEOSGeometry) *Geometry`: wraps the handle, whatever it
is, and registers the finalizer that destroys it. -/
def geomFromC {σ : Type} (c : Ptr) (w : World σ) : Geometry × World σ :=
  (Geometry.mk c,
    { w with finalizers := w.finalizers ++ [Finalizer.GEOSGeom_destroy_r c] })

/-- Go `func (g *Geometry) GetType() GeometryType`. -/
def Geometry.GetType {σ : Type} (E : Engine σ) (g : Geometry) (w : World σ) :
    GeometryType × World σ :=
  (E.GEOSGeomTypeId_r w.eng g.c, w.log (Call.GEOSGeomTypeId_r g.c))

/-- Go `func CreatePoint(x, y float64) *Geometry`; `none` is the nil pointer. -/
def CreatePoint {σ : Type} (E : Engine σ) (x y : Float64) (w : World σ) :
    Option Geometry × World σ :=
  let r := createCoordSeq E 1 2 w
  match r.1 with
  | none => (none, r.2)
  | some s =>
    if s.c = 0 then (none, r.2)
    else
      let w1 := s.setX E 0 x r.2
      let w2 := s.setY E 0 y w1
      let q := E.GEOSGeom_createPoint_r w2.eng s.c
      let w3 := w2.step (Call.GEOSGeom_createPoint_r s.c) q.2
      if q.1 = 0 then (none, w3)
      else
        let g := geomFromC q.1 w3
        (some g.1, g.2)

/-- Go `func CreatePointZ(x, y, z float64) *Geometry`. -/
def CreatePointZ {σ : Type} (E : Engine σ) (x y z : Float64) (w : World σ) :
    Option Geometry × World σ :=
  let r := createCoordSeq E 1 3 w
  match r.1 with
  | none => (none, r.2)
  | some s =>
    if s.c = 0 then (none, r.2)
    else
      let w1 := s.setX E 0 x r.2
      let w2 := s.setY E 0 y w1
      let w3 := s.setZ E 0 z w2
      let q := E.GEOSGeom_createPoint_r w3.eng s.c
      let w4 := w3.step (Call.GEOSGeom_createPoint_r s.c) q.2
      if q.1 = 0 then (none, w4)
      else
        let g := geomFromC q.1 w4
        (some g.1, g.2)

/-- Go `func CreateLinearRing(coords []Coord) *Geometry`; `coordSeq.c` on a nil
`coordSeq` panics. -/
def CreateLinearRing {σ : Type} (E : Engine σ) (coords : List Coord) (w : World σ) :
    Res σ (Option Geometry) :=
  match coordSeqFromCoords E coords w with
  | Res.panic => Res.panic
  | Res.ok none _ => Res.panic
  | Res.ok (some coordSeq) w1 =>
    let q := E.GEOSGeom_createLinearRing_r w1.eng coordSeq.c
    let w2 := w1.step (Call.GEOSGeom_createLinearRing_r coordSeq.c) q.2
    let g := geomFromC q.1 w2
    Res.ok (some g.1) g.2

/-- Go `func CreateLinearRingZ(coords []CoordZ) *Geometry`. -/
def CreateLinearRingZ {σ : Type} (E : Engine σ) (coords : List CoordZ) (w : World σ) :
    Res σ (Option Geometry) :=
  match coordSeqFromCoordZs E coords w with
  | Res.panic => Res.panic
  | Res.ok none _ => Res.panic
  | Res.ok (some coordSeq) w1 =>
    let q := E.GEOSGeom_createLinearRing_r w1.eng coordSeq.c
    let w2 := w1.step (Call.GEOSGeom_createLinearRing_r coordSeq.c) q.2
    let g := geomFromC q.1 w2
    Res.ok (some g.1) g.2

/-- Go `func CreateLineString(coords []Coord) *Geometry`. -/
def CreateLineString {σ : Type} (E : Engine σ) (coords : List Coord) (w : World σ) :
    Res σ (Option Geometry) :=
  match coordSeqFromCoords E coords w with
  | Res.panic => Res.panic
  | Res.ok none _ => Res.panic
  | Res.ok (some coordSeq) w1 =>
    let q := E.GEOSGeom_createLineString_r w1.eng coordSeq.c
    let w2 := w1.step (Call.GEOSGeom_createLineString_r coordSeq.c) q.2
    let g := geomFromC q.1 w2
    Res.ok (some g.1) g.2

/-- Go `func CreateLineStringZ(coords []CoordZ) *Geometry`. -/
def CreateLineStringZ {σ : Type} (E : Engine σ) (coords : List CoordZ) (w : World σ) :
    Res σ (Option Geometry) :=
  match coordSeqFromCoordZs E coords w with
  | Res.panic => Res.panic
  | Res.ok none _ => Res.panic
  | Res.ok (some coordSeq) w1 =>
    let q := E.GEOSGeom_createLineString_r w1.eng coordSeq.c
    let w2 := w1.step (Call.GEOSGeom_createLineString_r coordSeq.c) q.2
    let g := geomFromC q.1 w2
    Res.ok (some g.1) g.2

/-- The loop `for i := range holes` of `CreatePolygon`; `holeGeom.c` on a nil
`holeGeom` panics. -/
def CreatePolygonHoles {σ : Type} (E : Engine σ) :
    List (List Coord) → List Ptr → World σ → Res σ (List Ptr)
  | [], holeCs, w => Res.ok holeCs w
  | hole :: rest, holeCs, w =>
    match CreateLinearRing E hole w with
    | Res.panic => Res.panic
    | Res.ok none _ => Res.panic
    | Res.ok (some holeGeom) w1 => CreatePolygonHoles E rest (holeCs ++ [holeGeom.c]) w1

/-- Go `func CreatePolygon(shell []Coord, holes ...[]Coord) *Geometry`. -/
def CreatePolygon {σ : Type} (E : Engine σ) (shell : List Coord) (holes : List (List Coord))
    (w : World σ) : Res σ (Option Geometry) :=
  match CreateLinearRing E shell w with
  | Res.panic => Res.panic
  | Res.ok none w1 => Res.ok none w1
  | Res.ok (some shellGeom) w1 =>
    let shellC := shellGeom.c
    match CreatePolygonHoles E holes [] w1 with
    | Res.panic => Res.panic
    | Res.ok holeCs w2 =>
      let holeCount : Int := (holeCs.length : Int)
      let q := E.GEOSGeom_createPolygon_r w2.eng shellC holeCs (cUint holeCount)
      let w3 := w2.step (Call.GEOSGeom_createPolygon_r shellC holeCs (cUint holeCount)) q.2
      let g := geomFromC q.1 w3
      Res.ok (some g.1) g.2

/-- The loop `for i := range holes` of `CreatePolygonZ`. -/
def CreatePolygonZHoles {σ : Type} (E : Engine σ) :
    List (List CoordZ) → List Ptr → World σ → Res σ (List Ptr)
  | [], holeCs, w => Res.ok holeCs w
  | hole :: rest, holeCs, w =>
    match CreateLinearRingZ E hole w with
    | Res.panic => Res.panic
    | Res.ok none _ => Res.panic
    | Res.ok (some holeGeom) w1 => CreatePolygonZHoles E rest (holeCs ++ [holeGeom.c]) w1

/-- Go `func CreatePolygonZ(shell []CoordZ, holes ...[]CoordZ) *Geometry`. -/
def CreatePolygonZ {σ : Type} (E : Engine σ) (shell : List CoordZ) (holes : List (List CoordZ))
    (w : World σ) : Res σ (Option Geometry) :=
  match CreateLinearRingZ E shell w with
  | Res.panic => Res.panic
  | Res.ok none w1 => Res.ok none w1
  | Res.ok (some shellGeom) w1 =>
    let shellC := shellGeom.c
    match CreatePolygonZHoles E holes [] w1 with
    | Res.panic => Res.panic
    | Res.ok holeCs w2 =>
      let holeCount : Int := (holeCs.length : Int)
      let q := E.GEOSGeom_createPolygon_r w2.eng shellC holeCs (cUint holeCount)
      let w3 := w2.step (Call.GEOSGeom_createPolygon_r shellC holeCs (cUint holeCount)) q.2
      let g := geomFromC q.1 w3
      Res.ok (some g.1) g.2

/-- The loop `for i := range geoms` of `CreateMultiGeometry` with its `switch`:
a geometry failing the test of its case is skipped (`continue`), any other is
appended to `geomsCs`. -/
def CreateMultiGeometryLoop {σ : Type} (E : Engine σ) (geomType : GeometryType) :
    List Geometry → List Ptr → World σ → List Ptr × World σ
  | [], geomsCs, w => (geomsCs, w)
  | geom :: rest, geomsCs, w =>
    let t := geom.GetType E w
    let thisType := t.1
    if geomType = MULTIPOINT ∧ thisType ≠ POINT then
      CreateMultiGeometryLoop E geomType rest geomsCs t.2
    else if geomType = MULTILINESTRING ∧ thisType ≠ LINESTRING then
      CreateMultiGeometryLoop E geomType rest geomsCs t.2
    else if geomType = MULTIPOLYGON ∧ thisType ≠ POLYGON then
      CreateMultiGeometryLoop E geomType rest geomsCs t.2
    else
      CreateMultiGeometryLoop E geomType rest (geomsCs ++ [geom.c]) t.2

/-- Go `func CreateMultiGeometry(geoms []*Geometry, geomType GeometryType) *Geometry`,
on a slice of non-nil geometries. -/
def CreateMultiGeometry {σ : Type} (E : Engine σ) (geoms : List Geometry)
    (geomType : GeometryType) (w : World σ) : Option Geometry × World σ :=
  let r := CreateMultiGeometryLoop E geomType geoms [] w
  let geomsCs := r.1
  let geomCount : Int := (geomsCs.length : Int)
  if geomCount > 0 then
    let q := E.GEOSGeom_createCollection_r r.2.eng (cInt geomType) geomsCs (cUint geomCount)
    let w1 := r.2.step
      (Call.GEOSGeom_createCollection_r (cInt geomType) geomsCs (cUint geomCount)) q.2
    let g := geomFromC q.1 w1
    (some g.1, g.2)
  else (none, r.2)

/-! ## geom.go: predicates -/

/-- Go `func (g *Geometry) Disjoint(g2 *Geometry) bool`. -/
def Geometry.Disjoint {σ : Type} (E : Engine σ) (g g2 : Geometry) (w : World σ) :
    Bool × World σ :=
  let flag := E.GEOSDisjoint_r w.eng g.c g2.c
  (decide (flag = 1), w.log (Call.GEOSDisjoint_r g.c g2.c))

/-- Go `func (g *Geometry) Touches(g2 *Geometry) bool`. -/
def Geometry.Touches {σ : Type} (E : Engine σ) (g g2 : Geometry) (w : World σ) :
    Bool × World σ :=
  let flag := E.GEOSTouches_r w.eng g.c g2.c
  (decide (flag = 1), w.log (Call.GEOSTouches_r g.c g2.c))

/-- Go `func (g *Geometry) Intersects(g2 *Geometry) bool`. -/
def Geometry.Intersects {σ : Type} (E : Engine σ) (g g2 : Geometry) (w : World σ) :
    Bool × World σ :=
  let flag := E.GEOSIntersects_r w.eng g.c g2.c
  (decide (flag = 1), w.log (Call.GEOSIntersects_r g.c g2.c))

/-- Go `func (g *Geometry) Crosses(g2 *Geometry) bool`. -/
def Geometry.Crosses {σ : Type} (E : Engine σ) (g g2 : Geometry) (w : World σ) :
    Bool × World σ :=
  let flag := E.GEOSCrosses_r w.eng g.c g2.c
  (decide (flag = 1), w.log (Call.GEOSCrosses_r g.c g2.c))

/-- Go `func (g *Geometry) Within(g2 *Geometry) bool`. -/
def Geometry.Within {σ : Type} (E : Engine σ) (g g2 : Geometry) (w : World σ) :
    Bool × World σ :=
  let flag := E.GEOSWithin_r w.eng g.c g2.c
  (decide (flag = 1), w.log (Call.GEOSWithin_r g.c g2.c))

/-- Go `func (g *Geometry) Contains(g2 *Geometry) bool`. -/
def Geometry.Contains {σ : Type} (E : Engine σ) (g g2 : Geometry) (w : World σ) :
    Bool × World σ :=
  let flag := E.GEOSContains_r w.eng g.c g2.c
  (decide (flag = 1), w.log (Call.GEOSContains_r g.c g2.c))

/-- Go `func (g *Geometry) Overlaps(g2 *Geometry) bool`. -/
def Geometry.Overlaps {σ : Type} (E : Engine σ) (g g2 : Geometry) (w : World σ) :
    Bool × World σ :=
  let flag := E.GEOSOverlaps_r w.eng g.c g2.c
  (decide (flag = 1), w.log (Call.GEOSOverlaps_r g.c g2.c))

/-- Go `func (g *Geometry) Equals(g2 *Geometry) bool`. -/
def Geometry.Equals {σ : Type} (E : Engine σ) (g g2 : Geometry) (w : World σ) :
    Bool × World σ :=
  let flag := E.GEOSEquals_r w.eng g.c g2.c
  (decide (flag = 1), w.log (Call.GEOSEquals_r g.c g2.c))

/-- Go `func (g *Geometry) EqualsExact(g2 *Geometry, tol float64) bool`. -/
def Geometry.EqualsExact {σ : Type} (E : Engine σ) (g g2 : Geometry) (tol : Float64)
    (w : World σ) : Bool × World σ :=
  let flag := E.GEOSEqualsExact_r w.eng g.c g2.c tol
  (decide (flag = 1), w.log (Call.GEOSEqualsExact_r g.c g2.c tol))

/-- Go `func (g *Geometry) Covers(g2 *Geometry) bool`. -/
def Geometry.Covers {σ : Type} (E : Engine σ) (g g2 : Geometry) (w : World σ) :
    Bool × World σ :=
  let flag := E.GEOSCovers_r w.eng g.c g2.c
  (decide (flag = 1), w.log (Call.GEOSCovers_r g.c g2.c))

/-- Go `func (g *Geometry) CoveredBy(g2 *Geometry) bool`. -/
def Geometry.CoveredBy {σ : Type} (E : Engine σ) (g g2 : Geometry) (w : World σ) :
    Bool × World σ :=
  let flag := E.GEOSCoveredBy_r w.eng g.c g2.c
  (decide (flag = 1), w.log (Call.GEOSCoveredBy_r g.c g2.c))

/-! ## a reference engine

The engine is external to the repository.  The following small store-based
engine instantiates the parameter `E` at concrete inputs: handles are
positions in an object store, a coordinate sequence stores each in-range
write and reports failure (return code `0`) on an out-of-range read, a geometry
records the sequence and the parts it was built from.  As GEOS does, it returns
null for a LinearRing of one to three points and for a LineString of one point. -/

/-- An object of the reference engine: a coordinate sequence, or a geometry with
the handle of the sequence it took (`0` for none) and the handles of its parts. -/
inductive Obj where
  | seq (dims : Nat) (pts : List CoordZ)
  | geom (type : Int) (seq : Ptr) (parts : List Ptr)
deriving DecidableEq

/-- State of the reference engine: handle `p > 0` names `objs[p - 1]`. -/
structure RefState where
  objs : List Obj
deriving DecidableEq

/-- The object behind a handle. -/
def RefState.lookup (e : RefState) : Ptr → Option Obj
  | 0 => none
  | p + 1 => e.objs.get? p

/-- Allocate an object; its handle is its position plus one. -/
def RefState.alloc (e : RefState) (o : Obj) : Ptr × RefState :=
  (e.objs.length + 1, RefState.mk (e.objs ++ [o]))

/-- Replace the object behind a non-null handle. -/
def RefState.store (e : RefState) : Ptr → Obj → RefState
  | 0, _ => e
  | p + 1, o => RefState.mk (e.objs.set p o)

/-- Write one ordinate of point `idx` of sequence `s`; anything else leaves the state as it is. -/
def RefState.write (e : RefState) (s : Ptr) (idx : Nat) (f : CoordZ → CoordZ) : RefState :=
  match e.lookup s with
  | some (Obj.seq dims pts) =>
    if idx < pts.length then e.store s (Obj.seq dims (pts.modify f idx)) else e
  | _ => e

/-- Read one ordinate of point `idx` of sequence `s`: code `1` and the value, or
code `0` with the output variable untouched. -/
def RefState.read (e : RefState) (s : Ptr) (idx : Nat) (f : CoordZ → Float64) : Int × Float64 :=
  match e.lookup s with
  | some (Obj.seq _ pts) =>
    match pts.get? idx with
    | some p => (1, f p)
    | none => (0, Float64.zero)
  | _ => (0, Float64.zero)

/-- Build a geometry of type `t` over sequence `s`; null when `s` is not a sequence
or its number of points is not accepted for the type. -/
def RefState.leaf (e : RefState) (t : Int) (accepts : Nat → Bool) (s : Ptr) : Ptr × RefState :=
  match e.lookup s with
  | some (Obj.seq _ pts) => if accepts pts.length then e.alloc (Obj.geom t s []) else (0, e)
  | _ => (0, e)

/-- The reference engine; every predicate answers `flag`. -/
def refEngine (flag : Int) : Engine RefState where
  GEOSCoordSeq_create_r := fun e size dims =>
    e.alloc (Obj.seq dims (List.replicate size (CoordZ.mk Float64.zero Float64.zero Float64.zero)))
  GEOSCoordSeq_getSize_r := fun e s =>
    match e.lookup s with
    | some (Obj.seq _ pts) => pts.length
    | _ => 0
  GEOSCoordSeq_setX_r := fun e s idx v => e.write s idx (fun p => CoordZ.mk v p.Y p.Z)
  GEOSCoordSeq_setY_r := fun e s idx v => e.write s idx (fun p => CoordZ.mk p.X v p.Z)
  GEOSCoordSeq_setZ_r := fun e s idx v => e.write s idx (fun p => CoordZ.mk p.X p.Y v)
  GEOSCoordSeq_getX_r := fun e s idx => e.read s idx CoordZ.X
  GEOSCoordSeq_getY_r := fun e s idx => e.read s idx CoordZ.Y
  GEOSCoordSeq_getZ_r := fun e s idx => e.read s idx CoordZ.Z
  GEOSGeomTypeId_r := fun e g =>
    match e.lookup g with
    | some (Obj.geom t _ _) => t
    | _ => -1
  GEOSGeom_createPoint_r := fun e s => e.leaf POINT (fun n => decide (n ≤ 1)) s
  GEOSGeom_createLinearRing_r := fun e s =>
    e.leaf LINEARRING (fun n => decide (n = 0 ∨ 4 ≤ n)) s
  GEOSGeom_createLineString_r := fun e s =>
    e.leaf LINESTRING (fun n => decide (n = 0 ∨ 2 ≤ n)) s
  GEOSGeom_createPolygon_r := fun e shell holes n =>
    if shell = 0 then (0, e) else e.alloc (Obj.geom POLYGON 0 (shell :: holes.take n))
  GEOSGeom_createCollection_r := fun e t geoms n => e.alloc (Obj.geom t 0 (geoms.take n))
  GEOSHausdorffDistanceDensify_r := fun _ _ _ f => f
  GEOSDisjoint_r := fun _ _ _ => flag
  GEOSTouches_r := fun _ _ _ => flag
  GEOSIntersects_r := fun _ _ _ => flag
  GEOSCrosses_r := fun _ _ _ => flag
  GEOSWithin_r := fun _ _ _ => flag
  GEOSContains_r := fun _ _ _ => flag
  GEOSOverlaps_r := fun _ _ _ => flag
  GEOSEquals_r := fun _ _ _ => flag
  GEOSEqualsExact_r := fun _ _ _ _ => flag
  GEOSCovers_r := fun _ _ _ => flag
  GEOSCoveredBy_r := fun _ _ _ => flag

/-- The reference engine with a coordinate-sequence creation that fails (null). -/
def noSeqEngine : Engine RefState :=
  { refEngine 0 with GEOSCoordSeq_create_r := fun e _ _ => (0, e) }

/-- The reference engine with geometry creations that fail (null), as the engine
does for a malformed ring. -/
def noGeomEngine : Engine RefState :=
  { refEngine 0 with
    GEOSGeom_createPoint_r := fun e _ => (0, e)
    GEOSGeom_createLinearRing_r := fun e _ => (0, e)
    GEOSGeom_createLineString_r := fun e _ => (0, e)
    GEOSGeom_createPolygon_r := fun e _ _ _ => (0, e)
    GEOSGeom_createCollection_r := fun e _ _ _ => (0, e) }

/-- The reference engine with coordinate reads that do not check the index: a
read at or past the size reports success (return code `1`) and leaves the
ordinate of the first point in the output variable. -/
def uncheckedEngine : Engine RefState :=
  { refEngine 0 with
    GEOSCoordSeq_getX_r := fun e s idx =>
      if idx < (refEngine 0).GEOSCoordSeq_getSize_r e s then e.read s idx CoordZ.X
      else (1, (e.read s 0 CoordZ.X).2)
    GEOSCoordSeq_getY_r := fun e s idx =>
      if idx < (refEngine 0).GEOSCoordSeq_getSize_r e s then e.read s idx CoordZ.Y
      else (1, (e.read s 0 CoordZ.Y).2)
    GEOSCoordSeq_getZ_r := fun e s idx =>
      if idx < (refEngine 0).GEOSCoordSeq_getSize_r e s then e.read s idx CoordZ.Z
      else (1, (e.read s 0 CoordZ.Z).2) }

/-- The empty world over the empty reference store. -/
def World.init : World RefState := World.mk (RefState.mk []) [] []

/-- Handles a geometry owns directly in the reference engine: its sequence and its parts. -/
def RefState.owned (e : RefState) (p : Ptr) : List Ptr :=
  match e.lookup p with
  | some (Obj.geom _ s parts) => (if s = 0 then [] else [s]) ++ parts
  | _ => []

/-- Handles released by destroying `p`: `p` itself and, recursively, what it owns
(`fuel` bounds the depth of the ownership tree). -/
def RefState.released (e : RefState) : Nat → Ptr → List Ptr
  | 0, p => [p]
  | fuel + 1, p => p :: (e.owned p).flatMap (fun q => RefState.released e fuel q)

/-- Handles released by running one finalizer: destroying a geometry releases it
with the rings, parts and sequences it owns; destroying a sequence releases it. -/
def Finalizer.releases (e : RefState) : Finalizer → List Ptr
  | Finalizer.GEOSGeom_destroy_r c => if c = 0 then [] else e.released e.objs.length c
  | Finalizer.GEOSCoordSeq_destroy_r c => if c = 0 then [] else [c]

/-- All handles released, with multiplicity, by running every registered finalizer. -/
def World.releasedByFinalizers (w : World RefState) : List Ptr :=
  w.finalizers.flatMap (Finalizer.releases w.eng)

/-- The unit square ring `(0,0) (0,10) (10,10) (10,0) (0,0)` of the spec's example. -/
def squareShell : List Coord :=
  [Coord.mk Float64.zero Float64.zero, Coord.mk Float64.zero Float64.ten,
   Coord.mk Float64.ten Float64.ten, Coord.mk Float64.ten Float64.zero,
   Coord.mk Float64.zero Float64.zero]

/-- What remains of a result once the world is projected to its observable parts. -/
def Res.view {σ α : Type} : Res σ α → Option (α × List Call × List Finalizer)
  | Res.panic => none
  | Res.ok a w => some (a, w.calls, w.finalizers)

/-! ## specification-side definitions -/

/-- The component type the specification names for a target type: Point for
MultiPoint, LineString for MultiLineString, Polygon for MultiPolygon; no
component type, hence no filtering, for any other target type
(GeometryCollection among them). -/
def componentType (t : GeometryType) : Option GeometryType :=
  if t = MULTIPOINT then some POINT
  else if t = MULTILINESTRING then some LINESTRING
  else if t = MULTIPOLYGON then some POLYGON
  else none

/-- Whether a geometry passes the type filter for target type `t`, its type being
the one the engine reports in state `e`. -/
def survives {σ : Type} (E : Engine σ) (e : σ) (t : GeometryType) (g : Geometry) : Bool :=
  match componentType t with
  | some ct => decide (E.GEOSGeomTypeId_r e g.c = ct)
  | none => true

/-- The type queries `CreateMultiGeometry` makes, one per input geometry, in order. -/
def typeQueries (gs : List Geometry) : List Call :=
  gs.map (fun g => Call.GEOSGeomTypeId_r g.c)

/-- Whether a call is a collection creation. -/
def Call.isCreateCollection : Call → Bool
  | Call.GEOSGeom_createCollection_r _ _ _ => true
  | _ => false

/-- Whether a call is a LinearRing creation. -/
def Call.isCreateLinearRing : Call → Bool
  | Call.GEOSGeom_createLinearRing_r _ => true
  | _ => false

/-- Whether a call is a polygon creation. -/
def Call.isCreatePolygon : Call → Bool
  | Call.GEOSGeom_createPolygon_r _ _ _ => true
  | _ => false

/-- The engine reports failure (return code `0`) on a coordinate read at an index
that is not below the size of the sequence. -/
def ReportsOutOfRange {σ : Type} (E : Engine σ) : Prop :=
  ∀ (e : σ) (s : Ptr) (i : Nat), E.GEOSCoordSeq_getSize_r e s ≤ i →
    (E.GEOSCoordSeq_getX_r e s i).1 = 0 ∧ (E.GEOSCoordSeq_getY_r e s i).1 = 0 ∧
    (E.GEOSCoordSeq_getZ_r e s i).1 = 0

/-- Projection of a stored point to a 2D coordinate. -/
def CoordZ.toCoord (p : CoordZ) : Coord := Coord.mk p.X p.Y

/-- The engine implements coordinate sequences: `view e s` is the dimension and
the points of sequence `s` in state `e`.  A successful creation yields a
sequence of the requested dimension and size, the size query returns the
number of points, an in-range write of an ordinate the dimension has is stored
and changes nothing else of the sequence, and an in-range read of such an
ordinate succeeds with the stored value. -/
structure StoresWrites {σ : Type} (E : Engine σ) (view : σ → Ptr → Option (Nat × List CoordZ)) :
    Prop where
  create : ∀ (e : σ) (n d : Nat), (E.GEOSCoordSeq_create_r e n d).1 ≠ 0 →
    ∃ pts, view (E.GEOSCoordSeq_create_r e n d).2 (E.GEOSCoordSeq_create_r e n d).1 = some (d, pts)
      ∧ pts.length = n
  getSize : ∀ (e : σ) (s : Ptr) (d : Nat) (pts : List CoordZ), view e s = some (d, pts) →
    E.GEOSCoordSeq_getSize_r e s = pts.length
  setX : ∀ (e : σ) (s : Ptr) (d : Nat) (pts : List CoordZ) (i : Nat) (v : Float64),
    view e s = some (d, pts) → i < pts.length →
    view (E.GEOSCoordSeq_setX_r e s i v) s = some (d, pts.modify (fun p => CoordZ.mk v p.Y p.Z) i)
  setY : ∀ (e : σ) (s : Ptr) (d : Nat) (pts : List CoordZ) (i : Nat) (v : Float64),
    view e s = some (d, pts) → i < pts.length →
    view (E.GEOSCoordSeq_setY_r e s i v) s = some (d, pts.modify (fun p => CoordZ.mk p.X v p.Z) i)
  setZ : ∀ (e : σ) (s : Ptr) (d : Nat) (pts : List CoordZ) (i : Nat) (v : Float64),
    view e s = some (d, pts) → 3 ≤ d → i < pts.length →
    view (E.GEOSCoordSeq_setZ_r e s i v) s = some (d, pts.modify (fun p => CoordZ.mk p.X p.Y v) i)
  getX : ∀ (e : σ) (s : Ptr) (d : Nat) (pts : List CoordZ) (i : Nat) (p : CoordZ),
    view e s = some (d, pts) → pts[i]? = some p →
    (E.GEOSCoordSeq_getX_r e s i).1 ≠ 0 ∧ (E.GEOSCoordSeq_getX_r e s i).2 = p.X
  getY : ∀ (e : σ) (s : Ptr) (d : Nat) (pts : List CoordZ) (i : Nat) (p : CoordZ),
    view e s = some (d, pts) → pts[i]? = some p →
    (E.GEOSCoordSeq_getY_r e s i).1 ≠ 0 ∧ (E.GEOSCoordSeq_getY_r e s i).2 = p.Y
  getZ : ∀ (e : σ) (s : Ptr) (d : Nat) (pts : List CoordZ) (i : Nat) (p : CoordZ),
    view e s = some (d, pts) → 3 ≤ d → pts[i]? = some p →
    (E.GEOSCoordSeq_getZ_r e s i).1 ≠ 0 ∧ (E.GEOSCoordSeq_getZ_r e s i).2 = p.Z

/-- The sequences of the reference engine. -/
def refView (e : RefState) (s : Ptr) : Option (Nat × List CoordZ) :=
  match e.lookup s with
  | some (Obj.seq d pts) => some (d, pts)
  | _ => none

/-- The coordinate sequence a result holds, if it did not panic and is not nil. -/
def Res.seq? {σ : Type} : Res σ (Option coordSequence) → Option (coordSequence × World σ)
  | Res.ok (some s) w => some (s, w)
  | _ => none

/-- Round trip of a 2D coordinate list through a fresh coordinate sequence:
the list `toCoords` reads back, or `none` when no sequence was built. -/
def roundTrip {σ : Type} (E : Engine σ) (cs : List Coord) (w : World σ) : Option (List Coord) :=
  match (coordSeqFromCoords E cs w).seq? with
  | some (s, w1) => some (s.toCoords E w1).1
  | none => none

/-- Round trip of a 3D coordinate list through a fresh coordinate sequence. -/
def roundTripZ {σ : Type} (E : Engine σ) (cs : List CoordZ) (w : World σ) :
    Option (List CoordZ) :=
  match (coordSeqFromCoordZs E cs w).seq? with
  | some (s, w1) => some (s.toCoordZs E w1).1
  | none => none

/-- A world of the reference engine holding, in this order, a point `pointA`
(handle 2), a line string `lineB` (handle 4) and a point `pointC` (handle 6). -/
def worldABC : World RefState :=
  let wa := (CreatePoint (refEngine 0) Float64.zero Float64.zero World.init).2
  let wb := match CreateLineString (refEngine 0)
      [Coord.mk Float64.zero Float64.zero, Coord.mk Float64.one Float64.one] wa with
    | Res.ok _ w => w
    | Res.panic => wa
  (CreatePoint (refEngine 0) Float64.five Float64.five wb).2

/-- Handle of `pointA` in `worldABC`. -/
def pointA : Geometry := Geometry.mk 2
/-- Handle of `lineB` in `worldABC`. -/
def lineB : Geometry := Geometry.mk 4
/-- Handle of `pointC` in `worldABC`. -/
def pointC : Geometry := Geometry.mk 6

/-- A malformed ring: three points, not closed. -/
def openTriangle : List Coord :=
  [Coord.mk Float64.zero Float64.zero, Coord.mk Float64.zero Float64.ten,
   Coord.mk Float64.ten Float64.ten]

/-- The hole `(1,1) (1,5) (5,5) (5,1) (1,1)`. -/
def squareHole : List Coord :=
  [Coord.mk Float64.one Float64.one, Coord.mk Float64.one Float64.five,
   Coord.mk Float64.five Float64.five, Coord.mk Float64.five Float64.one,
   Coord.mk Float64.one Float64.one]

/-- Lift a 2D coordinate list to 3D with `Z = 1`. -/
def withZ (cs : List Coord) : List CoordZ :=
  cs.map (fun c => CoordZ.mk c.X c.Y Float64.one)

/-- A world of the reference engine holding the one-point sequence `[(5, 5)]` (handle 1). -/
def worldFive : World RefState :=
  (CreatePoint (refEngine 0) Float64.five Float64.five World.init).2

/-! ## theorems: HausdorffDistanceDensify -/

theorem Float64.key_one : Float64.one.key = 4607182418800017408 := by decide

theorem Float64.key_zero : Float64.zero.key = 0 := by decide

/-- The call `HausdorffDistanceDensify` logs, for the three branches of the clamp. -/
theorem HausdorffDistanceDensify_calls {σ : Type} (E : Engine σ) (g1 g2 : Geometry)
    (f : Float64) (w : World σ) :
    (g1.HausdorffDistanceDensify E g2 f w).2.calls = w.calls ++
      [Call.GEOSHausdorffDistanceDensify_r g1.c g2.c
        (if Float64.gt f Float64.one then Float64.one
         else if Float64.le f Float64.zero then Float64.SmallestNonzeroFloat64 else f)] := by
  simp [Geometry.HausdorffDistanceDensify, World.log]

theorem Float64.not_gt_one_of_le_zero (f : Float64) (h : Float64.le f Float64.zero = true) :
    Float64.gt f Float64.one = false := by
  simp only [Float64.le, Float64.gt, Float64.lt, Bool.and_eq_true, decide_eq_true_eq,
    Float64.key_zero, Float64.key_one] at *
  simp only [Bool.and_eq_false_iff, decide_eq_false_iff_not]
  right
  omega

theorem Float64.not_gt_one_of_le_one (f : Float64) (h : Float64.le f Float64.one = true) :
    Float64.gt f Float64.one = false := by
  simp only [Float64.le, Float64.gt, Float64.lt, Bool.and_eq_true, decide_eq_true_eq,
    Float64.key_one] at *
  simp only [Bool.and_eq_false_iff, decide_eq_false_iff_not]
  right
  omega

theorem Float64.not_le_zero_of_pos (f : Float64) (h : Float64.lt Float64.zero f = true) :
    Float64.le f Float64.zero = false := by
  simp only [Float64.le, Float64.lt, Bool.and_eq_true, decide_eq_true_eq,
    Float64.key_zero] at *
  simp only [Bool.and_eq_false_iff, decide_eq_false_iff_not]
  right
  omega

/-- The result of `HausdorffDistanceDensify`: the value the engine returns at the
clamped fraction, and the world with that one call logged. -/
theorem HausdorffDistanceDensify_eq {σ : Type} (E : Engine σ) (g1 g2 : Geometry)
    (f : Float64) (w : World σ) :
    g1.HausdorffDistanceDensify E g2 f w =
      (E.GEOSHausdorffDistanceDensify_r w.eng g1.c g2.c
        (if Float64.gt f Float64.one then Float64.one
         else if Float64.le f Float64.zero then Float64.SmallestNonzeroFloat64 else f),
       w.log (Call.GEOSHausdorffDistanceDensify_r g1.c g2.c
        (if Float64.gt f Float64.one then Float64.one
         else if Float64.le f Float64.zero then Float64.SmallestNonzeroFloat64 else f))) := by
  rfl

/-- C3: `HausdorffDistanceDensify(g1, g2, f)` passes to the engine the fraction `1`
when `f > 1`, `math.SmallestNonzeroFloat64` when `f <= 0`, and `f` itself when
`0 < f <= 1`: in each case it makes exactly that one engine call and returns what
the engine returns at that fraction; the call with `1.5` equals the call with
`1.0`, and the calls with `0` and `-1` both equal the call with the smallest
positive fraction. -/
theorem HausdorffDistanceDensify_clamp {σ : Type} (E : Engine σ) (g1 g2 : Geometry)
    (f : Float64) (w : World σ) :
    (Float64.gt f Float64.one = true →
      g1.HausdorffDistanceDensify E g2 f w =
        (E.GEOSHausdorffDistanceDensify_r w.eng g1.c g2.c Float64.one,
          w.log (Call.GEOSHausdorffDistanceDensify_r g1.c g2.c Float64.one))) ∧
    (Float64.le f Float64.zero = true →
      g1.HausdorffDistanceDensify E g2 f w =
        (E.GEOSHausdorffDistanceDensify_r w.eng g1.c g2.c Float64.SmallestNonzeroFloat64,
          w.log (Call.GEOSHausdorffDistanceDensify_r g1.c g2.c
            Float64.SmallestNonzeroFloat64))) ∧
    (Float64.lt Float64.zero f = true → Float64.le f Float64.one = true →
      g1.HausdorffDistanceDensify E g2 f w =
        (E.GEOSHausdorffDistanceDensify_r w.eng g1.c g2.c f,
          w.log (Call.GEOSHausdorffDistanceDensify_r g1.c g2.c f))) ∧
    g1.HausdorffDistanceDensify E g2 Float64.onePointFive w =
      g1.HausdorffDistanceDensify E g2 Float64.one w ∧
    g1.HausdorffDistanceDensify E g2 Float64.zero w =
      g1.HausdorffDistanceDensify E g2 Float64.SmallestNonzeroFloat64 w ∧
    g1.HausdorffDistanceDensify E g2 Float64.negOne w =
      g1.HausdorffDistanceDensify E g2 Float64.SmallestNonzeroFloat64 w := by
  refine ⟨?_, ?_, ?_, ?_, ?_, ?_⟩
  · intro h
    rw [HausdorffDistanceDensify_eq, if_pos h]
  · intro h
    rw [HausdorffDistanceDensify_eq, Float64.not_gt_one_of_le_zero f h]
    simp [h]
  · intro h0 h1
    rw [HausdorffDistanceDensify_eq, Float64.not_gt_one_of_le_one f h1,
      Float64.not_le_zero_of_pos f h0]
    simp
  · have h : Float64.gt Float64.onePointFive Float64.one = true := by decide
    have h1 : Float64.gt Float64.one Float64.one = false := by decide
    have h2 : Float64.le Float64.one Float64.zero = false := by decide
    simp [Geometry.HausdorffDistanceDensify, h, h1, h2]
  · have h : Float64.gt Float64.zero Float64.one = false := by decide
    have h0 : Float64.le Float64.zero Float64.zero = true := by decide
    have h1 : Float64.gt Float64.SmallestNonzeroFloat64 Float64.one = false := by decide
    have h2 : Float64.le Float64.SmallestNonzeroFloat64 Float64.zero = false := by decide
    simp [Geometry.HausdorffDistanceDensify, h, h0, h1, h2]
  · have h : Float64.gt Float64.negOne Float64.one = false := by decide
    have h0 : Float64.le Float64.negOne Float64.zero = true := by decide
    have h1 : Float64.gt Float64.SmallestNonzeroFloat64 Float64.one = false := by decide
    have h2 : Float64.le Float64.SmallestNonzeroFloat64 Float64.zero = false := by decide
    simp [Geometry.HausdorffDistanceDensify, h, h0, h1, h2]

/-- C3 at the reference engine, whose distance call returns the fraction it is
given: the inputs `1.5`, `-1` and `1` meet the three hypotheses and return the
fractions `1`, `math.SmallestNonzeroFloat64` and `1`, with that one call logged. -/
theorem HausdorffDistanceDensify_clamp_witness :
    Float64.gt Float64.onePointFive Float64.one = true ∧
    Float64.le Float64.negOne Float64.zero = true ∧
    (Float64.lt Float64.zero Float64.one = true ∧ Float64.le Float64.one Float64.one = true) ∧
    pointA.HausdorffDistanceDensify (refEngine 0) lineB Float64.onePointFive worldABC =
      (Float64.one, worldABC.log (Call.GEOSHausdorffDistanceDensify_r 2 4 Float64.one)) ∧
    pointA.HausdorffDistanceDensify (refEngine 0) lineB Float64.negOne worldABC =
      (Float64.SmallestNonzeroFloat64,
        worldABC.log (Call.GEOSHausdorffDistanceDensify_r 2 4 Float64.SmallestNonzeroFloat64)) ∧
    pointA.HausdorffDistanceDensify (refEngine 0) lineB Float64.one worldABC =
      (Float64.one, worldABC.log (Call.GEOSHausdorffDistanceDensify_r 2 4 Float64.one)) :=
  ⟨by decide, by decide, ⟨by decide, by decide⟩,
    (HausdorffDistanceDensify_clamp (refEngine 0) pointA lineB Float64.onePointFive worldABC).1
      (by decide),
    (HausdorffDistanceDensify_clamp (refEngine 0) pointA lineB Float64.negOne worldABC).2.1
      (by decide),
    (HausdorffDistanceDensify_clamp (refEngine 0) pointA lineB Float64.one worldABC).2.2.1
      (by decide) (by decide)⟩

/-- C4 as stated fails: a NaN fraction fails both comparisons of the clamp and is
passed to the engine as it is, and NaN does not lie in `(0, 1]`. -/
theorem HausdorffDistanceDensify_nan_passed :
    (pointA.HausdorffDistanceDensify (refEngine 0) lineB Float64.nan worldABC).2.calls =
      worldABC.calls ++ [Call.GEOSHausdorffDistanceDensify_r 2 4 Float64.nan] ∧
    ¬ (Float64.lt Float64.zero Float64.nan = true ∧ Float64.le Float64.nan Float64.one = true) := by
  constructor
  · rfl
  · decide

/-- C4, amended: for every fraction `f` that is not NaN (the infinities included)
the fraction `HausdorffDistanceDensify` passes to the engine lies in `(0, 1]`. -/
theorem HausdorffDistanceDensify_fraction_in_range {σ : Type} (E : Engine σ) (g1 g2 : Geometry)
    (f : Float64) (w : World σ) (hf : f.isNaN = false) :
    ∃ p, (g1.HausdorffDistanceDensify E g2 f w).2.calls =
        w.calls ++ [Call.GEOSHausdorffDistanceDensify_r g1.c g2.c p] ∧
      Float64.lt Float64.zero p = true ∧ Float64.le p Float64.one = true := by
  refine ⟨_, HausdorffDistanceDensify_calls E g1 g2 f w, ?_⟩
  by_cases h1 : Float64.gt f Float64.one = true
  · rw [if_pos h1]; decide
  · rw [if_neg h1]
    by_cases h0 : Float64.le f Float64.zero = true
    · rw [if_pos h0]; decide
    · rw [if_neg h0]
      have hz : Float64.zero.isNaN = false := by decide
      have ho : Float64.one.isNaN = false := by decide
      simp only [Float64.le, Float64.gt, Float64.lt, hf, hz, ho, Bool.not_false, Bool.true_and,
        decide_eq_true_eq, Float64.key_zero, Float64.key_one] at *
      omega

/-- C4, amended, at positive and negative infinity. -/
theorem HausdorffDistanceDensify_fraction_in_range_witness :
    Float64.posInf.isNaN = false ∧
    ∃ p, (pointA.HausdorffDistanceDensify (refEngine 0) lineB Float64.posInf worldABC).2.calls =
        worldABC.calls ++ [Call.GEOSHausdorffDistanceDensify_r pointA.c lineB.c p] ∧
      Float64.lt Float64.zero p = true ∧ Float64.le p Float64.one = true :=
  ⟨by decide,
    HausdorffDistanceDensify_fraction_in_range (refEngine 0) pointA lineB Float64.posInf worldABC
      (by decide)⟩

/-! ## theorems: predicates -/

/-- C5 as stated fails: with an engine answering the exception value `2` each of
the eleven predicates returns `false`, the very result it returns with an
engine answering `0`; the two outcomes cannot be told apart. -/
theorem predicates_exception_coerced_to_false :
    (pointA.Disjoint (refEngine 2) lineB worldABC).1 = false ∧
    (pointA.Disjoint (refEngine 2) lineB worldABC).1 =
      (pointA.Disjoint (refEngine 0) lineB worldABC).1 ∧
    (pointA.Touches (refEngine 2) lineB worldABC).1 =
      (pointA.Touches (refEngine 0) lineB worldABC).1 ∧
    (pointA.Intersects (refEngine 2) lineB worldABC).1 =
      (pointA.Intersects (refEngine 0) lineB worldABC).1 ∧
    (pointA.Crosses (refEngine 2) lineB worldABC).1 =
      (pointA.Crosses (refEngine 0) lineB worldABC).1 ∧
    (pointA.Within (refEngine 2) lineB worldABC).1 =
      (pointA.Within (refEngine 0) lineB worldABC).1 ∧
    (pointA.Contains (refEngine 2) lineB worldABC).1 =
      (pointA.Contains (refEngine 0) lineB worldABC).1 ∧
    (pointA.Overlaps (refEngine 2) lineB worldABC).1 =
      (pointA.Overlaps (refEngine 0) lineB worldABC).1 ∧
    (pointA.Equals (refEngine 2) lineB worldABC).1 =
      (pointA.Equals (refEngine 0) lineB worldABC).1 ∧
    (pointA.EqualsExact (refEngine 2) lineB Float64.zero worldABC).1 =
      (pointA.EqualsExact (refEngine 0) lineB Float64.zero worldABC).1 ∧
    (pointA.Covers (refEngine 2) lineB worldABC).1 =
      (pointA.Covers (refEngine 0) lineB worldABC).1 ∧
    (pointA.CoveredBy (refEngine 2) lineB worldABC).1 =
      (pointA.CoveredBy (refEngine 0) lineB worldABC).1 := by
  decide

/-- C5, amended: each of the eleven predicates returns `true` exactly when the
engine's tri-state result is `1`, and `false` for every other result, the
exception value `2` included. -/
theorem predicates_true_iff_engine_one {σ : Type} (E : Engine σ) (g g2 : Geometry)
    (tol : Float64) (w : World σ) :
    ((g.Disjoint E g2 w).1 = true ↔ E.GEOSDisjoint_r w.eng g.c g2.c = 1) ∧
    ((g.Touches E g2 w).1 = true ↔ E.GEOSTouches_r w.eng g.c g2.c = 1) ∧
    ((g.Intersects E g2 w).1 = true ↔ E.GEOSIntersects_r w.eng g.c g2.c = 1) ∧
    ((g.Crosses E g2 w).1 = true ↔ E.GEOSCrosses_r w.eng g.c g2.c = 1) ∧
    ((g.Within E g2 w).1 = true ↔ E.GEOSWithin_r w.eng g.c g2.c = 1) ∧
    ((g.Contains E g2 w).1 = true ↔ E.GEOSContains_r w.eng g.c g2.c = 1) ∧
    ((g.Overlaps E g2 w).1 = true ↔ E.GEOSOverlaps_r w.eng g.c g2.c = 1) ∧
    ((g.Equals E g2 w).1 = true ↔ E.GEOSEquals_r w.eng g.c g2.c = 1) ∧
    ((g.EqualsExact E g2 tol w).1 = true ↔ E.GEOSEqualsExact_r w.eng g.c g2.c tol = 1) ∧
    ((g.Covers E g2 w).1 = true ↔ E.GEOSCovers_r w.eng g.c g2.c = 1) ∧
    ((g.CoveredBy E g2 w).1 = true ↔ E.GEOSCoveredBy_r w.eng g.c g2.c = 1) := by
  simp [Geometry.Disjoint, Geometry.Touches, Geometry.Intersects, Geometry.Crosses,
    Geometry.Within, Geometry.Contains, Geometry.Overlaps, Geometry.Equals,
    Geometry.EqualsExact, Geometry.Covers, Geometry.CoveredBy]

/-! ## theorems: CreateMultiGeometry -/

/-- The `switch` of `CreateMultiGeometry` skips a geometry exactly when it does not
pass the type filter. -/
theorem skip_iff_not_survives {σ : Type} (E : Engine σ) (e : σ) (t : GeometryType)
    (g : Geometry) :
    ((t = MULTIPOINT ∧ E.GEOSGeomTypeId_r e g.c ≠ POINT) ∨
     (t = MULTILINESTRING ∧ E.GEOSGeomTypeId_r e g.c ≠ LINESTRING) ∨
     (t = MULTIPOLYGON ∧ E.GEOSGeomTypeId_r e g.c ≠ POLYGON)) ↔ survives E e t g = false := by
  unfold survives componentType
  by_cases h1 : t = MULTIPOINT
  · subst h1
    simp [MULTIPOINT, MULTILINESTRING, MULTIPOLYGON]
  · by_cases h2 : t = MULTILINESTRING
    · subst h2
      simp [MULTIPOINT, MULTILINESTRING, MULTIPOLYGON]
    · by_cases h3 : t = MULTIPOLYGON
      · subst h3
        simp [MULTIPOINT, MULTILINESTRING, MULTIPOLYGON]
      · simp [h1, h2, h3]

/-- The loop of `CreateMultiGeometry` appends the handles of the surviving
geometries, in order, and logs one type query per geometry. -/
theorem CreateMultiGeometryLoop_eq {σ : Type} (E : Engine σ) (t : GeometryType)
    (gs : List Geometry) :
    ∀ (acc : List Ptr) (w : World σ),
      CreateMultiGeometryLoop E t gs acc w =
        (acc ++ (gs.filter (survives E w.eng t)).map Geometry.c,
          World.mk w.eng (w.calls ++ typeQueries gs) w.finalizers) := by
  induction gs with
  | nil => intro acc w; simp [CreateMultiGeometryLoop, typeQueries]
  | cons g rest ih =>
    intro acc w
    have hk := skip_iff_not_survives E w.eng t g
    unfold CreateMultiGeometryLoop
    simp only [Geometry.GetType, World.log]
    by_cases hs : survives E w.eng t g = true
    · have hn : ¬ ((t = MULTIPOINT ∧ E.GEOSGeomTypeId_r w.eng g.c ≠ POINT) ∨
          (t = MULTILINESTRING ∧ E.GEOSGeomTypeId_r w.eng g.c ≠ LINESTRING) ∨
          (t = MULTIPOLYGON ∧ E.GEOSGeomTypeId_r w.eng g.c ≠ POLYGON)) := by
        rw [hk]; simp [hs]
      simp only [not_or] at hn
      rw [if_neg hn.1, if_neg hn.2.1, if_neg hn.2.2, ih]
      simp [List.filter_cons, hs, typeQueries]
    · have hs' : survives E w.eng t g = false := by simpa using hs
      have hy := hk.mpr hs'
      by_cases c1 : t = MULTIPOINT ∧ E.GEOSGeomTypeId_r w.eng g.c ≠ POINT
      · rw [if_pos c1, ih]
        simp [List.filter_cons, hs', typeQueries]
      · rw [if_neg c1]
        by_cases c2 : t = MULTILINESTRING ∧ E.GEOSGeomTypeId_r w.eng g.c ≠ LINESTRING
        · rw [if_pos c2, ih]
          simp [List.filter_cons, hs', typeQueries]
        · rw [if_neg c2]
          have c3 : t = MULTIPOLYGON ∧ E.GEOSGeomTypeId_r w.eng g.c ≠ POLYGON := by
            rcases hy with h | h | h
            · exact absurd h c1
            · exact absurd h c2
            · exact h
          rw [if_pos c3, ih]
          simp [List.filter_cons, hs', typeQueries]

/-- What `CreateMultiGeometry` does when no geometry survives. -/
theorem CreateMultiGeometry_none {σ : Type} (E : Engine σ) (gs : List Geometry)
    (t : GeometryType) (w : World σ) (h : gs.filter (survives E w.eng t) = []) :
    CreateMultiGeometry E gs t w =
      (none, World.mk w.eng (w.calls ++ typeQueries gs) w.finalizers) := by
  simp [CreateMultiGeometry, CreateMultiGeometryLoop_eq, h]

/-- What `CreateMultiGeometry` does when some geometry survives. -/
theorem CreateMultiGeometry_some {σ : Type} (E : Engine σ) (gs : List Geometry)
    (t : GeometryType) (w : World σ) (h : gs.filter (survives E w.eng t) ≠ []) :
    (CreateMultiGeometry E gs t w).2.calls = w.calls ++ typeQueries gs ++
      [Call.GEOSGeom_createCollection_r (cInt t)
        ((gs.filter (survives E w.eng t)).map Geometry.c)
        (cUint ((gs.filter (survives E w.eng t)).length : Int))] := by
  have hpos : ((gs.filter (survives E w.eng t)).length : Int) > 0 := by
    have := List.length_pos.mpr h
    omega
  simp only [CreateMultiGeometry, CreateMultiGeometryLoop_eq, List.nil_append, List.length_map]
  rw [if_pos hpos]
  simp [geomFromC, World.step]

theorem cUint_of_lt (n : Nat) (h : n < 4294967296) : cUint (n : Int) = n := by
  unfold cUint
  omega

/-- C2: if no geometry of `gs` survives the type filter, `CreateMultiGeometry`
returns nil; the only engine calls it makes are the type queries, none of them a
collection creation, and the engine state and the finalizers are untouched. -/
theorem CreateMultiGeometry_empty_after_filter {σ : Type} (E : Engine σ) (gs : List Geometry)
    (t : GeometryType) (w : World σ) (h : gs.filter (survives E w.eng t) = []) :
    (CreateMultiGeometry E gs t w).1 = none ∧
    (CreateMultiGeometry E gs t w).2.calls = w.calls ++ typeQueries gs ∧
    (∀ c ∈ typeQueries gs, c.isCreateCollection = false) ∧
    (CreateMultiGeometry E gs t w).2.finalizers = w.finalizers := by
  rw [CreateMultiGeometry_none E gs t w h]
  refine ⟨rfl, rfl, ?_, rfl⟩
  intro c hc
  simp only [typeQueries, List.mem_map] at hc
  obtain ⟨g, _, rfl⟩ := hc
  rfl

/-- C2 at the two inputs the claim names: the empty list, and a list holding only
a LineString with target MULTIPOINT. -/
theorem CreateMultiGeometry_empty_after_filter_witness :
    ([lineB].filter (survives (refEngine 0) worldABC.eng MULTIPOINT) = [] ∧
      (CreateMultiGeometry (refEngine 0) [lineB] MULTIPOINT worldABC).1 = none ∧
      (CreateMultiGeometry (refEngine 0) [lineB] MULTIPOINT worldABC).2.calls =
        worldABC.calls ++ [Call.GEOSGeomTypeId_r 4]) ∧
    (([] : List Geometry).filter (survives (refEngine 0) worldABC.eng MULTIPOLYGON) = [] ∧
      (CreateMultiGeometry (refEngine 0) [] MULTIPOLYGON worldABC).1 = none ∧
      (CreateMultiGeometry (refEngine 0) [] MULTIPOLYGON worldABC).2.calls =
        worldABC.calls ++ []) :=
  ⟨⟨by decide,
      (CreateMultiGeometry_empty_after_filter (refEngine 0) [lineB] MULTIPOINT worldABC
        (by decide)).1,
      (CreateMultiGeometry_empty_after_filter (refEngine 0) [lineB] MULTIPOINT worldABC
        (by decide)).2.1⟩,
    ⟨by decide,
      (CreateMultiGeometry_empty_after_filter (refEngine 0) [] MULTIPOLYGON worldABC
        (by decide)).1,
      (CreateMultiGeometry_empty_after_filter (refEngine 0) [] MULTIPOLYGON worldABC
        (by decide)).2.1⟩⟩

/-- The whole result of `CreateMultiGeometry`: nil after the type queries when no
geometry survives; otherwise the wrapper of the handle the engine's collection
creation returns on the surviving handles, the engine state that creation
leaves, the type queries and that one creation logged, and the finalizer of the
new handle registered. -/
theorem CreateMultiGeometry_eq {σ : Type} (E : Engine σ) (gs : List Geometry)
    (t : GeometryType) (w : World σ) :
    CreateMultiGeometry E gs t w =
      if gs.filter (survives E w.eng t) = [] then
        (none, World.mk w.eng (w.calls ++ typeQueries gs) w.finalizers)
      else
        (some (Geometry.mk (E.GEOSGeom_createCollection_r w.eng (cInt t)
            ((gs.filter (survives E w.eng t)).map Geometry.c)
            (cUint ((gs.filter (survives E w.eng t)).length : Int))).1),
          World.mk
            (E.GEOSGeom_createCollection_r w.eng (cInt t)
              ((gs.filter (survives E w.eng t)).map Geometry.c)
              (cUint ((gs.filter (survives E w.eng t)).length : Int))).2
            (w.calls ++ typeQueries gs ++
              [Call.GEOSGeom_createCollection_r (cInt t)
                ((gs.filter (survives E w.eng t)).map Geometry.c)
                (cUint ((gs.filter (survives E w.eng t)).length : Int))])
            (w.finalizers ++ [Finalizer.GEOSGeom_destroy_r
              (E.GEOSGeom_createCollection_r w.eng (cInt t)
                ((gs.filter (survives E w.eng t)).map Geometry.c)
                (cUint ((gs.filter (survives E w.eng t)).length : Int))).1])) := by
  by_cases h : gs.filter (survives E w.eng t) = []
  · rw [if_pos h, CreateMultiGeometry_none E gs t w h]
  · rw [if_neg h]
    have hpos : ((gs.filter (survives E w.eng t)).length : Int) > 0 := by
      have := List.length_pos.mpr h
      omega
    simp only [CreateMultiGeometry, CreateMultiGeometryLoop_eq, List.nil_append,
      List.length_map]
    rw [if_pos hpos]
    simp [geomFromC, World.step]

/-- C1, amended: for every list `gs` and target type `t`, `CreateMultiGeometry(gs, t)`
queries the type of every geometry and then, unless no geometry survives,
applies the engine's collection creation, once, to exactly the sub-list of `gs`,
in original order, of the geometries whose type is the component type of `t`
(POINT for MULTIPOINT, LINESTRING for MULTILINESTRING, POLYGON for
MULTIPOLYGON), the whole of `gs` when `t` is GEOMETRYCOLLECTION, and returns the
wrapper of the handle that creation returns; the count passed is the length of
that sub-list truncated by `C.uint`, hence the length itself when fewer than
`2^32` geometries survive; no handle of a dropped geometry is in the list handed
over. -/
theorem CreateMultiGeometry_hands_survivors {σ : Type} (E : Engine σ) (gs : List Geometry)
    (t : GeometryType) (w : World σ) :
    CreateMultiGeometry E gs t w =
      (if gs.filter (survives E w.eng t) = [] then
        (none, World.mk w.eng (w.calls ++ typeQueries gs) w.finalizers)
      else
        (some (Geometry.mk (E.GEOSGeom_createCollection_r w.eng (cInt t)
            ((gs.filter (survives E w.eng t)).map Geometry.c)
            (cUint ((gs.filter (survives E w.eng t)).length : Int))).1),
          World.mk
            (E.GEOSGeom_createCollection_r w.eng (cInt t)
              ((gs.filter (survives E w.eng t)).map Geometry.c)
              (cUint ((gs.filter (survives E w.eng t)).length : Int))).2
            (w.calls ++ typeQueries gs ++
              [Call.GEOSGeom_createCollection_r (cInt t)
                ((gs.filter (survives E w.eng t)).map Geometry.c)
                (cUint ((gs.filter (survives E w.eng t)).length : Int))])
            (w.finalizers ++ [Finalizer.GEOSGeom_destroy_r
              (E.GEOSGeom_createCollection_r w.eng (cInt t)
                ((gs.filter (survives E w.eng t)).map Geometry.c)
                (cUint ((gs.filter (survives E w.eng t)).length : Int))).1]))) ∧
    ((gs.filter (survives E w.eng t)).length < 4294967296 →
      cUint ((gs.filter (survives E w.eng t)).length : Int) =
        ((gs.filter (survives E w.eng t)).map Geometry.c).length ∧
      (CreateMultiGeometry E gs t w).2.calls = w.calls ++ typeQueries gs ++
        (if gs.filter (survives E w.eng t) = [] then []
         else [Call.GEOSGeom_createCollection_r (cInt t)
            ((gs.filter (survives E w.eng t)).map Geometry.c)
            (gs.filter (survives E w.eng t)).length])) ∧
    (t = MULTIPOINT → gs.filter (survives E w.eng t) =
      gs.filter (fun g => decide (E.GEOSGeomTypeId_r w.eng g.c = POINT))) ∧
    (t = MULTILINESTRING → gs.filter (survives E w.eng t) =
      gs.filter (fun g => decide (E.GEOSGeomTypeId_r w.eng g.c = LINESTRING))) ∧
    (t = MULTIPOLYGON → gs.filter (survives E w.eng t) =
      gs.filter (fun g => decide (E.GEOSGeomTypeId_r w.eng g.c = POLYGON))) ∧
    (t = GEOMETRYCOLLECTION → gs.filter (survives E w.eng t) = gs) ∧
    (∀ g ∈ gs, survives E w.eng t g = false →
      g.c ∉ (gs.filter (survives E w.eng t)).map Geometry.c) := by
  refine ⟨CreateMultiGeometry_eq E gs t w, ?_, ?_, ?_, ?_, ?_, ?_⟩
  · intro hlen
    refine ⟨by rw [cUint_of_lt _ hlen, List.length_map], ?_⟩
    by_cases h : gs.filter (survives E w.eng t) = []
    · rw [CreateMultiGeometry_none E gs t w h, if_pos h]
      simp
    · rw [CreateMultiGeometry_some E gs t w h, if_neg h, cUint_of_lt _ hlen]
  · intro ht; subst ht
    congr 1
  · intro ht; subst ht
    congr 1
  · intro ht; subst ht
    congr 1
  · intro ht; subst ht
    apply List.filter_eq_self.mpr
    intro g _
    simp [survives, componentType, GEOMETRYCOLLECTION, MULTIPOINT, MULTILINESTRING, MULTIPOLYGON]
  · intro g _ hg hmem
    simp only [List.mem_map, List.mem_filter] at hmem
    obtain ⟨g1, ⟨_, hs⟩, hc⟩ := hmem
    have : survives E w.eng t g1 = survives E w.eng t g := by
      unfold survives
      rw [hc]
    rw [this, hg] at hs
    exact Bool.noConfusion hs

/-- C1, amended, at the spec's example: `[pointA, lineB, pointC]` with target
MULTIPOINT applies the collection creation to `[pointA, pointC]` with count `2`
and returns the new collection (handle 7). -/
theorem CreateMultiGeometry_hands_survivors_witness :
    ([pointA, lineB, pointC].filter (survives (refEngine 0) worldABC.eng MULTIPOINT)).length
      < 4294967296 ∧
    [pointA, lineB, pointC].filter (survives (refEngine 0) worldABC.eng MULTIPOINT) =
      [pointA, pointC] ∧
    (CreateMultiGeometry (refEngine 0) [pointA, lineB, pointC] MULTIPOINT worldABC).1 =
      some (Geometry.mk 7) ∧
    (CreateMultiGeometry (refEngine 0) [pointA, lineB, pointC] MULTIPOINT worldABC).2.calls =
      worldABC.calls ++ typeQueries [pointA, lineB, pointC] ++
      (if [pointA, lineB, pointC].filter (survives (refEngine 0) worldABC.eng MULTIPOINT) = []
       then []
       else [Call.GEOSGeom_createCollection_r (cInt MULTIPOINT)
          (([pointA, lineB, pointC].filter
            (survives (refEngine 0) worldABC.eng MULTIPOINT)).map Geometry.c)
          ([pointA, lineB, pointC].filter
            (survives (refEngine 0) worldABC.eng MULTIPOINT)).length]) :=
  ⟨by decide, by decide, by decide,
    ((CreateMultiGeometry_hands_survivors (refEngine 0) [pointA, lineB, pointC] MULTIPOINT
      worldABC).2.1 (by decide)).2⟩

theorem survives_collection {σ : Type} (E : Engine σ) (e : σ) (g : Geometry) :
    survives E e GEOMETRYCOLLECTION g = true := by
  simp [survives, componentType, GEOMETRYCOLLECTION, MULTIPOINT, MULTILINESTRING, MULTIPOLYGON]

theorem filter_replicate_collection {σ : Type} (E : Engine σ) (e : σ) (n : Nat) (g : Geometry) :
    (List.replicate n g).filter (survives E e GEOMETRYCOLLECTION) = List.replicate n g := by
  apply List.filter_eq_self.mpr
  intro a _
  exact survives_collection E e a

theorem replicate_ne_nil {α : Type} (n : Nat) (a : α) (h : 0 < n) : List.replicate n a ≠ [] := by
  intro hn
  have := congrArg List.length hn
  rw [List.length_replicate, List.length_nil] at this
  omega

theorem CreateMultiGeometry_replicate {σ : Type} (E : Engine σ) (w : World σ) (n : Nat)
    (g : Geometry) (h : 0 < n) :
    (CreateMultiGeometry E (List.replicate n g) GEOMETRYCOLLECTION w).2.calls =
      w.calls ++ typeQueries (List.replicate n g) ++
        [Call.GEOSGeom_createCollection_r 7 ((List.replicate n g).map Geometry.c)
          (cUint (n : Int))] := by
  have hne : (List.replicate n g).filter (survives E w.eng GEOMETRYCOLLECTION) ≠ [] := by
    rw [filter_replicate_collection]
    exact replicate_ne_nil n g h
  rw [CreateMultiGeometry_some _ _ _ _ hne, filter_replicate_collection, List.length_replicate]
  have h1 : cInt GEOMETRYCOLLECTION = 7 := by decide
  rw [h1]

theorem cUint_two_pow_32 : cUint ((4294967296 : Nat) : Int) = 0 := by decide

/-- C1 as stated fails on the count: with `2^32` surviving geometries the whole
list is handed to the engine but the count passed, `C.uint(geomCount)`, is `0`
and not the length of the list. -/
theorem CreateMultiGeometry_count_truncated :
    (List.replicate 4294967296 pointA).filter
        (survives (refEngine 0) worldABC.eng GEOMETRYCOLLECTION) =
      List.replicate 4294967296 pointA ∧
    (CreateMultiGeometry (refEngine 0) (List.replicate 4294967296 pointA)
        GEOMETRYCOLLECTION worldABC).2.calls =
      worldABC.calls ++ typeQueries (List.replicate 4294967296 pointA) ++
        [Call.GEOSGeom_createCollection_r 7
          ((List.replicate 4294967296 pointA).map Geometry.c) 0] ∧
    ((List.replicate 4294967296 pointA).map Geometry.c).length = 4294967296 := by
  refine ⟨filter_replicate_collection _ _ _ _, ?_, ?_⟩
  · have h := CreateMultiGeometry_replicate (refEngine 0) worldABC 4294967296 pointA
      (Nat.succ_pos _)
    rw [cUint_two_pow_32] at h
    exact h
  · rw [List.length_map, List.length_replicate]

/-! ## theorems: coordinate reads -/

theorem refEngine_reportsOutOfRange (flag : Int) : ReportsOutOfRange (refEngine flag) := by
  intro e s i h
  simp only [refEngine, RefState.read] at *
  cases hl : e.lookup s with
  | none => simp
  | some o =>
    cases o with
    | geom t q parts => simp
    | seq d pts =>
      rw [hl] at h
      simp only at h
      have : pts[i]? = none := List.getElem?_eq_none h
      simp [this]

/-- C6 as stated fails, in two ways.  On the reference engine, on a sequence of
length `1` holding `x = 5`, the index `2^32` is out of range, yet `C.uint(idx)` is
`0` and `getX` returns `5`.  And on an engine whose reads report success past
the end, `getX(size)` with `size = 1` returns what the engine left in the
output variable, `5`: the Go code never compares the index with the size. -/
theorem getX_index_truncated :
    ((coordSequence.mk 1).getSize (refEngine 0) worldFive).1 = 1 ∧
    ((coordSequence.mk 1).getX (refEngine 0) 4294967296 worldFive).1 = Float64.five ∧
    Float64.five ≠ Float64.zero ∧
    ((coordSequence.mk 1).getSize uncheckedEngine worldFive).1 = 1 ∧
    ((coordSequence.mk 1).getX uncheckedEngine 1 worldFive).1 = Float64.five := by
  decide

/-- C6, amended: for every coordinate sequence and every index `i`, `getX(i)`, `getY(i)`
and `getZ(i)` make one engine read at index `C.uint(i)` and nothing else; they
return exactly `0.0` when the engine's return code is `0`, whatever the engine
left in the output variable, and the engine's value unchanged when the return
code is not `0`.  Hence they return `0.0` at every index `i` with
`size <= i < 2^32` on an engine that reports failure for reads at or past the
size. -/
theorem getXYZ_zero_on_engine_failure {σ : Type} (E : Engine σ)
    (s : coordSequence) (w : World σ) (i : Int) :
    ((s.getX E i w).2 = w.log (Call.GEOSCoordSeq_getX_r s.c (cUint i)) ∧
      (s.getY E i w).2 = w.log (Call.GEOSCoordSeq_getY_r s.c (cUint i)) ∧
      (s.getZ E i w).2 = w.log (Call.GEOSCoordSeq_getZ_r s.c (cUint i))) ∧
    ((E.GEOSCoordSeq_getX_r w.eng s.c (cUint i)).1 = 0 → (s.getX E i w).1 = Float64.zero) ∧
    ((E.GEOSCoordSeq_getY_r w.eng s.c (cUint i)).1 = 0 → (s.getY E i w).1 = Float64.zero) ∧
    ((E.GEOSCoordSeq_getZ_r w.eng s.c (cUint i)).1 = 0 → (s.getZ E i w).1 = Float64.zero) ∧
    ((E.GEOSCoordSeq_getX_r w.eng s.c (cUint i)).1 ≠ 0 →
      (s.getX E i w).1 = (E.GEOSCoordSeq_getX_r w.eng s.c (cUint i)).2) ∧
    ((E.GEOSCoordSeq_getY_r w.eng s.c (cUint i)).1 ≠ 0 →
      (s.getY E i w).1 = (E.GEOSCoordSeq_getY_r w.eng s.c (cUint i)).2) ∧
    ((E.GEOSCoordSeq_getZ_r w.eng s.c (cUint i)).1 ≠ 0 →
      (s.getZ E i w).1 = (E.GEOSCoordSeq_getZ_r w.eng s.c (cUint i)).2) ∧
    (ReportsOutOfRange E → ((s.getSize E w).1 : Int) ≤ i → i < 4294967296 →
      (s.getX E i w).1 = Float64.zero ∧ (s.getY E i w).1 = Float64.zero ∧
      (s.getZ E i w).1 = Float64.zero) := by
  refine ⟨⟨?_, ?_, ?_⟩, ?_, ?_, ?_, ?_, ?_, ?_, ?_⟩
  · simp only [coordSequence.getX]; split <;> rfl
  · simp only [coordSequence.getY]; split <;> rfl
  · simp only [coordSequence.getZ]; split <;> rfl
  · intro h; simp [coordSequence.getX, h]
  · intro h; simp [coordSequence.getY, h]
  · intro h; simp [coordSequence.getZ, h]
  · intro h; simp [coordSequence.getX, h]
  · intro h; simp [coordSequence.getY, h]
  · intro h; simp [coordSequence.getZ, h]
  · intro hE hlo hhi
    have hi : E.GEOSCoordSeq_getSize_r w.eng s.c ≤ cUint i := by
      simp only [coordSequence.getSize] at hlo
      unfold cUint
      omega
    obtain ⟨hx, hy, hz⟩ := hE w.eng s.c (cUint i) hi
    exact ⟨by simp [coordSequence.getX, hx], by simp [coordSequence.getY, hy],
      by simp [coordSequence.getZ, hz]⟩

/-- C6, amended, on the one-point sequence `[(5, 5)]` of the reference engine:
`getX(size)` meets a return code `0` and is `0.0`, `getX(0)` meets a return code
`1` and is the stored `5`. -/
theorem getXYZ_zero_on_engine_failure_witness :
    ((refEngine 0).GEOSCoordSeq_getX_r worldFive.eng 1 (cUint 1)).1 = 0 ∧
    ((coordSequence.mk 1).getX (refEngine 0) 1 worldFive).1 = Float64.zero ∧
    ((refEngine 0).GEOSCoordSeq_getX_r worldFive.eng 1 (cUint 0)).1 ≠ 0 ∧
    ((coordSequence.mk 1).getX (refEngine 0) 0 worldFive).1 = Float64.five ∧
    ReportsOutOfRange (refEngine 0) ∧
    (((coordSequence.mk 1).getSize (refEngine 0) worldFive).1 : Int) ≤ 1 ∧
    (1 : Int) < 4294967296 ∧
    ((coordSequence.mk 1).getX (refEngine 0) 1 worldFive).1 = Float64.zero ∧
    ((coordSequence.mk 1).getY (refEngine 0) 1 worldFive).1 = Float64.zero ∧
    ((coordSequence.mk 1).getZ (refEngine 0) 1 worldFive).1 = Float64.zero :=
  ⟨by decide,
    (getXYZ_zero_on_engine_failure (refEngine 0) (coordSequence.mk 1) worldFive 1).2.1
      (by decide),
    by decide,
    (getXYZ_zero_on_engine_failure (refEngine 0) (coordSequence.mk 1) worldFive 0).2.2.2.2.1
      (by decide),
    refEngine_reportsOutOfRange 0, by decide, by decide,
    (getXYZ_zero_on_engine_failure (refEngine 0) (coordSequence.mk 1) worldFive
      1).2.2.2.2.2.2.2 (refEngine_reportsOutOfRange 0) (by decide) (by decide)⟩

/-! ## theorems: constructors and null results -/

/-- `CreateLinearRing` never returns nil: it panics or returns a Geometry object
around whatever handle the engine gave, null included. -/
theorem CreateLinearRing_never_nil {σ : Type} (E : Engine σ) (coords : List Coord)
    (w w1 : World σ) : CreateLinearRing E coords w ≠ Res.ok none w1 := by
  unfold CreateLinearRing
  cases coordSeqFromCoords E coords w with
  | panic => simp
  | ok o w2 =>
    cases o with
    | none => simp
    | some s => simp

/-- `CreatePolygon` never takes its `shellGeom == nil` exit. -/
theorem CreatePolygon_never_nil {σ : Type} (E : Engine σ) (shell : List Coord)
    (holes : List (List Coord)) (w w1 : World σ) :
    CreatePolygon E shell holes w ≠ Res.ok none w1 := by
  unfold CreatePolygon
  cases h : CreateLinearRing E shell w with
  | panic => simp
  | ok o w2 =>
    cases o with
    | none => exact absurd h (CreateLinearRing_never_nil E shell w w2)
    | some g =>
      simp only
      cases CreatePolygonHoles E holes [] w2 with
      | panic => simp
      | ok hs w3 => simp

/-- C7, the code at a failing input: the shell is a malformed ring, the engine
returns a null ring for it, and `CreatePolygon` (and `CreatePolygonZ`) still
creates the hole ring (handle 3), calls the polygon creation with the null
shell, and returns a Geometry object wrapping the null result. -/
theorem CreatePolygon_null_shell_continues :
    (CreatePolygon (refEngine 0) openTriangle [squareHole] World.init).view.map
        (fun r => (r.1, r.2.1.filter Call.isCreateLinearRing,
          r.2.1.filter Call.isCreatePolygon)) =
      some (some (Geometry.mk 0),
        [Call.GEOSGeom_createLinearRing_r 1, Call.GEOSGeom_createLinearRing_r 2],
        [Call.GEOSGeom_createPolygon_r 0 [3] 1]) ∧
    (CreatePolygonZ (refEngine 0) (withZ openTriangle) [withZ squareHole] World.init).view.map
        (fun r => (r.1, r.2.1.filter Call.isCreateLinearRing,
          r.2.1.filter Call.isCreatePolygon)) =
      some (some (Geometry.mk 0),
        [Call.GEOSGeom_createLinearRing_r 1, Call.GEOSGeom_createLinearRing_r 2],
        [Call.GEOSGeom_createPolygon_r 0 [3] 1]) := by
  decide

/-- C8, the code at failing inputs: `CreatePoint` and `CreatePointZ` return nil on
a null sequence or geometry, but `CreateLinearRing` and `CreateLineString` panic
when the sequence creation returns null, and `CreateLineString`,
`CreateLinearRing`, `CreatePolygon` and `CreateMultiGeometry` return a Geometry
object wrapping the null handle when the geometry creation returns null. -/
theorem constructors_on_null_results :
    (CreatePoint noSeqEngine Float64.one Float64.one World.init).1 = none ∧
    (CreatePoint noGeomEngine Float64.one Float64.one World.init).1 = none ∧
    (CreatePointZ noSeqEngine Float64.one Float64.one Float64.one World.init).1 = none ∧
    (CreatePointZ noGeomEngine Float64.one Float64.one Float64.one World.init).1 = none ∧
    (CreateLinearRing noSeqEngine squareShell World.init).view = none ∧
    (CreateLineString noSeqEngine squareShell World.init).view = none ∧
    (CreateLinearRingZ noSeqEngine (withZ squareShell) World.init).view = none ∧
    (CreateLineStringZ noSeqEngine (withZ squareShell) World.init).view = none ∧
    (CreateLineString (refEngine 0) [Coord.mk Float64.one Float64.one] World.init).view.map
      (fun r => r.1) = some (some (Geometry.mk 0)) ∧
    (CreateLinearRing (refEngine 0) openTriangle World.init).view.map
      (fun r => r.1) = some (some (Geometry.mk 0)) ∧
    (CreateLineStringZ (refEngine 0) (withZ [Coord.mk Float64.one Float64.one])
      World.init).view.map (fun r => r.1) = some (some (Geometry.mk 0)) ∧
    (CreateLinearRingZ (refEngine 0) (withZ openTriangle) World.init).view.map
      (fun r => r.1) = some (some (Geometry.mk 0)) ∧
    (CreatePolygon (refEngine 0) openTriangle [] World.init).view.map
      (fun r => r.1) = some (some (Geometry.mk 0)) ∧
    (CreateMultiGeometry noGeomEngine [pointA] GEOMETRYCOLLECTION worldABC).1 =
      some (Geometry.mk 0) := by
  split_ands <;> decide

/-! ## theorems: finalizers -/

/-- C9, the code at a failing input: `CreatePolygon(squareShell, squareHole)` succeeds
with polygon handle 5 and registers five finalizers; running them all releases
the shell ring (handle 2) and the hole ring (handle 4) twice each, and the
coordinate sequence of each ring (handles 1 and 3) three times. -/
theorem CreatePolygon_finalizers_double_release :
    (CreatePolygon (refEngine 0) squareShell [squareHole] World.init).view.map
        (fun r => (r.1, r.2.2)) =
      some (some (Geometry.mk 5),
        [Finalizer.GEOSCoordSeq_destroy_r 1, Finalizer.GEOSGeom_destroy_r 2,
         Finalizer.GEOSCoordSeq_destroy_r 3, Finalizer.GEOSGeom_destroy_r 4,
         Finalizer.GEOSGeom_destroy_r 5]) ∧
    (match CreatePolygon (refEngine 0) squareShell [squareHole] World.init with
      | Res.ok _ w =>
        (w.releasedByFinalizers.count 2, w.releasedByFinalizers.count 4,
          w.releasedByFinalizers.count 1, w.releasedByFinalizers.count 3,
          w.releasedByFinalizers.count 5)
      | Res.panic => (0, 0, 0, 0, 0)) = (2, 2, 3, 3, 1) := by
  decide

/-! ## theorems: toCoords -/

theorem getX_eng {σ : Type} (E : Engine σ) (s : coordSequence) (i : Int) (w : World σ) :
    (s.getX E i w).2.eng = w.eng := by
  simp only [coordSequence.getX]
  split <;> rfl

theorem getY_eng {σ : Type} (E : Engine σ) (s : coordSequence) (i : Int) (w : World σ) :
    (s.getY E i w).2.eng = w.eng := by
  simp only [coordSequence.getY]
  split <;> rfl

theorem getZ_eng {σ : Type} (E : Engine σ) (s : coordSequence) (i : Int) (w : World σ) :
    (s.getZ E i w).2.eng = w.eng := by
  simp only [coordSequence.getZ]
  split <;> rfl

theorem getX_congr {σ : Type} (E : Engine σ) (s : coordSequence) (i : Int) (w w1 : World σ)
    (h : w1.eng = w.eng) : (s.getX E i w1).1 = (s.getX E i w).1 := by
  simp only [coordSequence.getX, h]
  split <;> rfl

theorem getY_congr {σ : Type} (E : Engine σ) (s : coordSequence) (i : Int) (w w1 : World σ)
    (h : w1.eng = w.eng) : (s.getY E i w1).1 = (s.getY E i w).1 := by
  simp only [coordSequence.getY, h]
  split <;> rfl

theorem getZ_congr {σ : Type} (E : Engine σ) (s : coordSequence) (i : Int) (w w1 : World σ)
    (h : w1.eng = w.eng) : (s.getZ E i w1).1 = (s.getZ E i w).1 := by
  simp only [coordSequence.getZ, h]
  split <;> rfl

/-- The loop of `toCoords` appends the coordinates at indices `i, i+1, .., i+k-1`;
the reads do not depend on the world the loop has reached, only on its engine
state, which the loop leaves as it is. -/
theorem toCoordsLoop_eq {σ : Type} (E : Engine σ) (s : coordSequence) (w0 : World σ) (k : Nat) :
    ∀ (i : Nat) (acc : List Coord) (w : World σ), w.eng = w0.eng →
      (coordSequence.toCoordsLoop E s k i acc w).1 = acc ++ (List.range k).map
        (fun j => Coord.mk (s.getX E ((i + j : Nat) : Int) w0).1
          (s.getY E ((i + j : Nat) : Int) w0).1) := by
  induction k with
  | zero => intro i acc w _; simp [coordSequence.toCoordsLoop]
  | succ k ih =>
    intro i acc w hw
    unfold coordSequence.toCoordsLoop
    simp only
    have h1 : (s.getX E (i : Int) w).2.eng = w0.eng := by rw [getX_eng, hw]
    have h2 : (s.getY E (i : Int) (s.getX E (i : Int) w).2).2.eng = w0.eng := by
      rw [getY_eng, h1]
    rw [ih (i + 1) _ _ h2, getX_congr E s i w0 w hw, getY_congr E s i w0 _ h1,
      List.range_succ_eq_map]
    simp only [List.map_cons, List.map_map, List.append_assoc, List.singleton_append,
      Nat.add_zero]
    congr 2
    apply List.map_congr_left
    intro j _
    simp only [Function.comp, Nat.succ_eq_add_one]
    have : i + 1 + j = i + (j + 1) := by omega
    rw [this]

theorem toCoordZsLoop_eq {σ : Type} (E : Engine σ) (s : coordSequence) (w0 : World σ) (k : Nat) :
    ∀ (i : Nat) (acc : List CoordZ) (w : World σ), w.eng = w0.eng →
      (coordSequence.toCoordZsLoop E s k i acc w).1 = acc ++ (List.range k).map
        (fun j => CoordZ.mk (s.getX E ((i + j : Nat) : Int) w0).1
          (s.getY E ((i + j : Nat) : Int) w0).1 (s.getZ E ((i + j : Nat) : Int) w0).1) := by
  induction k with
  | zero => intro i acc w _; simp [coordSequence.toCoordZsLoop]
  | succ k ih =>
    intro i acc w hw
    unfold coordSequence.toCoordZsLoop
    simp only
    have h1 : (s.getX E (i : Int) w).2.eng = w0.eng := by rw [getX_eng, hw]
    have h2 : (s.getY E (i : Int) (s.getX E (i : Int) w).2).2.eng = w0.eng := by
      rw [getY_eng, h1]
    have h3 : (s.getZ E (i : Int) (s.getY E (i : Int) (s.getX E (i : Int) w).2).2).2.eng
        = w0.eng := by
      rw [getZ_eng, h2]
    rw [ih (i + 1) _ _ h3, getX_congr E s i w0 w hw, getY_congr E s i w0 _ h1,
      getZ_congr E s i w0 _ h2, List.range_succ_eq_map]
    simp only [List.map_cons, List.map_map, List.append_assoc, List.singleton_append,
      Nat.add_zero]
    congr 2
    apply List.map_congr_left
    intro j _
    simp only [Function.comp, Nat.succ_eq_add_one]
    have : i + 1 + j = i + (j + 1) := by omega
    rw [this]

/-- The list `toCoords` returns: one coordinate per index below the size, in order. -/
theorem toCoords_eq {σ : Type} (E : Engine σ) (s : coordSequence) (w : World σ) :
    (s.toCoords E w).1 = (List.range (s.getSize E w).1).map
      (fun (i : Nat) => Coord.mk (s.getX E (i : Int) w).1 (s.getY E (i : Int) w).1) := by
  unfold coordSequence.toCoords
  simp only
  rw [toCoordsLoop_eq E s w _ 0 [] (s.getSize E w).2 rfl]
  simp [coordSequence.getSize]

theorem toCoordZs_eq {σ : Type} (E : Engine σ) (s : coordSequence) (w : World σ) :
    (s.toCoordZs E w).1 = (List.range (s.getSize E w).1).map
      (fun (i : Nat) => CoordZ.mk (s.getX E (i : Int) w).1 (s.getY E (i : Int) w).1
        (s.getZ E (i : Int) w).1) := by
  unfold coordSequence.toCoordZs
  simp only
  rw [toCoordZsLoop_eq E s w _ 0 [] (s.getSize E w).2 rfl]
  simp [coordSequence.getSize]

/-! ## theorems: round trip through a coordinate sequence -/

theorem setX_eng {σ : Type} (E : Engine σ) (s : coordSequence) (i : Nat) (v : Float64)
    (w : World σ) (hi : i < 4294967296) :
    (s.setX E (i : Int) v w).eng = E.GEOSCoordSeq_setX_r w.eng s.c i v := by
  simp [coordSequence.setX, World.step, cUint_of_lt i hi]

theorem setY_eng {σ : Type} (E : Engine σ) (s : coordSequence) (i : Nat) (v : Float64)
    (w : World σ) (hi : i < 4294967296) :
    (s.setY E (i : Int) v w).eng = E.GEOSCoordSeq_setY_r w.eng s.c i v := by
  simp [coordSequence.setY, World.step, cUint_of_lt i hi]

theorem setZ_eng {σ : Type} (E : Engine σ) (s : coordSequence) (i : Nat) (v : Float64)
    (w : World σ) (hi : i < 4294967296) :
    (s.setZ E (i : Int) v w).eng = E.GEOSCoordSeq_setZ_r w.eng s.c i v := by
  simp [coordSequence.setZ, World.step, cUint_of_lt i hi]

/-- The loop of `coordSeqFromCoords` on an engine that stores writes: it does not
panic, and afterwards the sequence holds the coordinates at the indices
`i, i+1, ..`, the points below `i` being as before. -/
theorem coordSeqFromCoordsLoop_stores {σ : Type} (E : Engine σ)
    (view : σ → Ptr → Option (Nat × List CoordZ)) (hS : StoresWrites E view)
    (s : coordSequence) (d : Nat) (cs : List Coord) :
    ∀ (i : Nat) (w : World σ) (pts : List CoordZ), view w.eng s.c = some (d, pts) →
      i + cs.length ≤ pts.length → pts.length ≤ 4294967296 →
      ∃ w1 pts1, coordSeqFromCoordsLoop E (some s) i cs w = Res.ok () w1 ∧
        view w1.eng s.c = some (d, pts1) ∧ pts1.length = pts.length ∧
        (∀ j, j < i → pts1[j]? = pts[j]?) ∧
        (∀ j, j < cs.length → (pts1[i + j]?).map CoordZ.toCoord = cs[j]?) := by
  induction cs with
  | nil =>
    intro i w pts hv _ _
    exact ⟨w, pts, rfl, hv, rfl, fun _ _ => rfl, fun j hj => absurd hj (Nat.not_lt_zero j)⟩
  | cons c rest ih =>
    intro i w pts hv hlen hmax
    simp only [List.length_cons] at hlen
    have hi : i < pts.length := by omega
    have hi32 : i < 4294967296 := by omega
    have hvx := hS.setX w.eng s.c d pts i c.X hv hi
    rw [← setX_eng E s i c.X w hi32] at hvx
    have hvy := hS.setY _ s.c d _ i c.Y hvx (by rw [List.length_modify]; exact hi)
    rw [← setY_eng E s i c.Y _ hi32] at hvy
    obtain ⟨w1, pts1, hrun, hv1, hl1, hlow, hhigh⟩ :=
      ih (i + 1) _ _ hvy (by simp only [List.length_modify]; omega)
        (by simp only [List.length_modify]; exact hmax)
    refine ⟨w1, pts1, ?_, hv1, ?_, ?_, ?_⟩
    · simp only [coordSeqFromCoordsLoop]
      exact hrun
    · rw [hl1]; simp
    · intro j hj
      rw [hlow j (by omega), List.getElem?_modify_ne _ _ (by omega),
        List.getElem?_modify_ne _ _ (by omega)]
    · intro j hj
      cases j with
      | zero =>
        obtain ⟨p, hp⟩ : ∃ p, pts[i]? = some p := ⟨pts[i], List.getElem?_eq_getElem hi⟩
        rw [Nat.add_zero, hlow i (by omega), List.getElem?_modify_eq, List.getElem?_modify_eq, hp]
        simp [CoordZ.toCoord]
      | succ j =>
        have := hhigh j (by simpa using hj)
        rw [show i + (j + 1) = i + 1 + j by omega, this]
        simp

theorem coordSeqFromCoordZsLoop_stores {σ : Type} (E : Engine σ)
    (view : σ → Ptr → Option (Nat × List CoordZ)) (hS : StoresWrites E view)
    (s : coordSequence) (d : Nat) (hd : 3 ≤ d) (cs : List CoordZ) :
    ∀ (i : Nat) (w : World σ) (pts : List CoordZ), view w.eng s.c = some (d, pts) →
      i + cs.length ≤ pts.length → pts.length ≤ 4294967296 →
      ∃ w1 pts1, coordSeqFromCoordZsLoop E (some s) i cs w = Res.ok () w1 ∧
        view w1.eng s.c = some (d, pts1) ∧ pts1.length = pts.length ∧
        (∀ j, j < i → pts1[j]? = pts[j]?) ∧
        (∀ j, j < cs.length → pts1[i + j]? = cs[j]?) := by
  induction cs with
  | nil =>
    intro i w pts hv _ _
    exact ⟨w, pts, rfl, hv, rfl, fun _ _ => rfl, fun j hj => absurd hj (Nat.not_lt_zero j)⟩
  | cons c rest ih =>
    intro i w pts hv hlen hmax
    simp only [List.length_cons] at hlen
    have hi : i < pts.length := by omega
    have hi32 : i < 4294967296 := by omega
    have hvx := hS.setX w.eng s.c d pts i c.X hv hi
    rw [← setX_eng E s i c.X w hi32] at hvx
    have hvy := hS.setY _ s.c d _ i c.Y hvx (by rw [List.length_modify]; exact hi)
    rw [← setY_eng E s i c.Y _ hi32] at hvy
    have hvz := hS.setZ _ s.c d _ i c.Z hvy hd
      (by rw [List.length_modify, List.length_modify]; exact hi)
    rw [← setZ_eng E s i c.Z _ hi32] at hvz
    obtain ⟨w1, pts1, hrun, hv1, hl1, hlow, hhigh⟩ :=
      ih (i + 1) _ _ hvz (by simp only [List.length_modify]; omega)
        (by simp only [List.length_modify]; exact hmax)
    refine ⟨w1, pts1, ?_, hv1, ?_, ?_, ?_⟩
    · simp only [coordSeqFromCoordZsLoop]
      exact hrun
    · rw [hl1]; simp
    · intro j hj
      rw [hlow j (by omega), List.getElem?_modify_ne _ _ (by omega),
        List.getElem?_modify_ne _ _ (by omega), List.getElem?_modify_ne _ _ (by omega)]
    · intro j hj
      cases j with
      | zero =>
        obtain ⟨p, hp⟩ : ∃ p, pts[i]? = some p := ⟨pts[i], List.getElem?_eq_getElem hi⟩
        rw [Nat.add_zero, hlow i (by omega), List.getElem?_modify_eq, List.getElem?_modify_eq,
          List.getElem?_modify_eq, hp]
        simp
      | succ j =>
        have := hhigh j (by simpa using hj)
        rw [show i + (j + 1) = i + 1 + j by omega, this]
        simp

theorem getX_of_view {σ : Type} (E : Engine σ)
    (view : σ → Ptr → Option (Nat × List CoordZ)) (hS : StoresWrites E view)
    (s : coordSequence) (w : World σ) (d : Nat) (pts : List CoordZ) (j : Nat) (p : CoordZ)
    (hv : view w.eng s.c = some (d, pts)) (hp : pts[j]? = some p) (hj : j < 4294967296) :
    (s.getX E (j : Int) w).1 = p.X := by
  have h := hS.getX w.eng s.c d pts j p hv hp
  simp only [coordSequence.getX, cUint_of_lt j hj]
  rw [if_neg h.1]
  exact h.2

theorem getY_of_view {σ : Type} (E : Engine σ)
    (view : σ → Ptr → Option (Nat × List CoordZ)) (hS : StoresWrites E view)
    (s : coordSequence) (w : World σ) (d : Nat) (pts : List CoordZ) (j : Nat) (p : CoordZ)
    (hv : view w.eng s.c = some (d, pts)) (hp : pts[j]? = some p) (hj : j < 4294967296) :
    (s.getY E (j : Int) w).1 = p.Y := by
  have h := hS.getY w.eng s.c d pts j p hv hp
  simp only [coordSequence.getY, cUint_of_lt j hj]
  rw [if_neg h.1]
  exact h.2

theorem getZ_of_view {σ : Type} (E : Engine σ)
    (view : σ → Ptr → Option (Nat × List CoordZ)) (hS : StoresWrites E view)
    (s : coordSequence) (w : World σ) (d : Nat) (pts : List CoordZ) (j : Nat) (p : CoordZ)
    (hv : view w.eng s.c = some (d, pts)) (hd : 3 ≤ d) (hp : pts[j]? = some p)
    (hj : j < 4294967296) :
    (s.getZ E (j : Int) w).1 = p.Z := by
  have h := hS.getZ w.eng s.c d pts j p hv hd hp
  simp only [coordSequence.getZ, cUint_of_lt j hj]
  rw [if_neg h.1]
  exact h.2

/-- On an engine that stores writes `toCoords` reads back the stored points. -/
theorem toCoords_of_view {σ : Type} (E : Engine σ)
    (view : σ → Ptr → Option (Nat × List CoordZ)) (hS : StoresWrites E view)
    (s : coordSequence) (w : World σ) (d : Nat) (pts : List CoordZ)
    (hv : view w.eng s.c = some (d, pts)) (hmax : pts.length ≤ 4294967296) :
    (s.toCoords E w).1 = pts.map CoordZ.toCoord := by
  rw [toCoords_eq]
  have hsz : (s.getSize E w).1 = pts.length := by
    simp only [coordSequence.getSize]
    exact hS.getSize w.eng s.c d pts hv
  rw [hsz]
  apply List.ext_getElem?
  intro j
  by_cases hj : j < pts.length
  · obtain ⟨p, hp⟩ : ∃ p, pts[j]? = some p := ⟨pts[j], List.getElem?_eq_getElem hj⟩
    rw [List.getElem?_map, List.getElem?_map, List.getElem?_range hj, hp]
    simp only [Option.map_some', CoordZ.toCoord]
    rw [getX_of_view E view hS s w d pts j p hv hp (by omega),
      getY_of_view E view hS s w d pts j p hv hp (by omega)]
  · rw [List.getElem?_eq_none (by simpa using hj), List.getElem?_eq_none (by simpa using hj)]

theorem toCoordZs_of_view {σ : Type} (E : Engine σ)
    (view : σ → Ptr → Option (Nat × List CoordZ)) (hS : StoresWrites E view)
    (s : coordSequence) (w : World σ) (d : Nat) (pts : List CoordZ)
    (hv : view w.eng s.c = some (d, pts)) (hd : 3 ≤ d) (hmax : pts.length ≤ 4294967296) :
    (s.toCoordZs E w).1 = pts := by
  rw [toCoordZs_eq]
  have hsz : (s.getSize E w).1 = pts.length := by
    simp only [coordSequence.getSize]
    exact hS.getSize w.eng s.c d pts hv
  rw [hsz]
  apply List.ext_getElem?
  intro j
  by_cases hj : j < pts.length
  · obtain ⟨p, hp⟩ : ∃ p, pts[j]? = some p := ⟨pts[j], List.getElem?_eq_getElem hj⟩
    rw [List.getElem?_map, List.getElem?_range hj, hp]
    simp only [Option.map_some']
    rw [getX_of_view E view hS s w d pts j p hv hp (by omega),
      getY_of_view E view hS s w d pts j p hv hp (by omega),
      getZ_of_view E view hS s w d pts j p hv hd hp (by omega)]
  · rw [List.getElem?_eq_none (by simpa using hj), List.getElem?_eq_none (by simpa using hj)]

theorem cUint_two : cUint 2 = 2 := by decide

theorem cUint_three : cUint 3 = 3 := by decide

/-- What `createCoordSeq` returns when it does not return nil. -/
theorem createCoordSeq_some {σ : Type} (E : Engine σ) (n d : Nat) (w : World σ)
    (hn : n < 4294967296) (hd : d < 4294967296)
    (h : (createCoordSeq E (n : Int) (d : Int) w).1 ≠ none) :
    (E.GEOSCoordSeq_create_r w.eng n d).1 ≠ 0 ∧
    (createCoordSeq E (n : Int) (d : Int) w).1 =
      some (coordSequence.mk (E.GEOSCoordSeq_create_r w.eng n d).1) ∧
    (createCoordSeq E (n : Int) (d : Int) w).2.eng = (E.GEOSCoordSeq_create_r w.eng n d).2 := by
  simp only [createCoordSeq, cUint_of_lt n hn, cUint_of_lt d hd] at h ⊢
  by_cases h0 : (E.GEOSCoordSeq_create_r w.eng n d).1 = 0
  · rw [if_pos h0] at h
    exact absurd rfl h
  · rw [if_neg h0]
    exact ⟨h0, rfl, rfl⟩

/-- Round trip, 2D: on an engine that stores writes, for fewer than `2^32`
coordinates and a successful sequence creation, `toCoords(coordSeqFromCoords(cs))`
is `cs`. -/
theorem roundTrip_eq {σ : Type} (E : Engine σ)
    (view : σ → Ptr → Option (Nat × List CoordZ)) (hS : StoresWrites E view)
    (cs : List Coord) (w : World σ) (hlen : cs.length < 4294967296)
    (hc : (createCoordSeq E (cs.length : Int) 2 w).1 ≠ none) :
    roundTrip E cs w = some cs := by
  obtain ⟨h0, hs, he⟩ := createCoordSeq_some E cs.length 2 w hlen (by decide) hc
  simp only [Nat.cast_ofNat] at hs he
  obtain ⟨pts, hv, hl⟩ := hS.create w.eng cs.length 2 h0
  rw [← he] at hv
  obtain ⟨w1, pts1, hrun, hv1, hl1, _, hhigh⟩ :=
    coordSeqFromCoordsLoop_stores E view hS
      (coordSequence.mk (E.GEOSCoordSeq_create_r w.eng cs.length 2).1) 2 cs 0 _ pts hv
      (by omega) (by omega)
  have hfrom : coordSeqFromCoords E cs w =
      Res.ok (some (coordSequence.mk (E.GEOSCoordSeq_create_r w.eng cs.length 2).1)) w1 := by
    simp only [coordSeqFromCoords]
    rw [hs, hrun]
  simp only [roundTrip, hfrom, Res.seq?]
  rw [toCoords_of_view E view hS _ w1 2 pts1 hv1 (by omega)]
  congr 1
  apply List.ext_getElem?
  intro j
  by_cases hj : j < cs.length
  · have := hhigh j hj
    rw [Nat.zero_add] at this
    rw [List.getElem?_map, this]
  · rw [List.getElem?_eq_none (by simp; omega), List.getElem?_eq_none (by simpa using hj)]

/-- Round trip, 3D. -/
theorem roundTripZ_eq {σ : Type} (E : Engine σ)
    (view : σ → Ptr → Option (Nat × List CoordZ)) (hS : StoresWrites E view)
    (cs : List CoordZ) (w : World σ) (hlen : cs.length < 4294967296)
    (hc : (createCoordSeq E (cs.length : Int) 3 w).1 ≠ none) :
    roundTripZ E cs w = some cs := by
  obtain ⟨h0, hs, he⟩ := createCoordSeq_some E cs.length 3 w hlen (by decide) hc
  simp only [Nat.cast_ofNat] at hs he
  obtain ⟨pts, hv, hl⟩ := hS.create w.eng cs.length 3 h0
  rw [← he] at hv
  obtain ⟨w1, pts1, hrun, hv1, hl1, _, hhigh⟩ :=
    coordSeqFromCoordZsLoop_stores E view hS
      (coordSequence.mk (E.GEOSCoordSeq_create_r w.eng cs.length 3).1) 3 (Nat.le_refl 3) cs 0 _
      pts hv (by omega) (by omega)
  have hfrom : coordSeqFromCoordZs E cs w =
      Res.ok (some (coordSequence.mk (E.GEOSCoordSeq_create_r w.eng cs.length 3).1)) w1 := by
    simp only [coordSeqFromCoordZs]
    rw [hs, hrun]
  simp only [roundTripZ, hfrom, Res.seq?]
  rw [toCoordZs_of_view E view hS _ w1 3 pts1 hv1 (Nat.le_refl 3) (by omega)]
  congr 1
  apply List.ext_getElem?
  intro j
  by_cases hj : j < cs.length
  · have := hhigh j hj
    rw [Nat.zero_add] at this
    exact this
  · rw [List.getElem?_eq_none (by omega), List.getElem?_eq_none (by simpa using hj)]

/-! ## theorems: the reference engine stores writes -/

theorem refView_eq (e : RefState) (s : Ptr) (d : Nat) (pts : List CoordZ)
    (h : refView e s = some (d, pts)) : e.lookup s = some (Obj.seq d pts) := by
  unfold refView at h
  cases hl : e.lookup s with
  | none => rw [hl] at h; simp at h
  | some o =>
    rw [hl] at h
    cases o with
    | geom t q parts => simp at h
    | seq d1 pts1 =>
      simp only [Option.some.injEq, Prod.mk.injEq] at h
      rw [h.1, h.2]

theorem lookup_store (e : RefState) (s : Ptr) (o0 o : Obj) (h : e.lookup s = some o0) :
    (e.store s o).lookup s = some o := by
  cases s with
  | zero => simp [RefState.lookup] at h
  | succ p =>
    simp only [RefState.lookup, List.get?_eq_getElem?] at h
    have hp : p < e.objs.length := by
      by_contra hn
      rw [List.getElem?_eq_none (by omega)] at h
      exact Option.noConfusion h
    simp [RefState.store, RefState.lookup, List.getElem?_set_self hp]

theorem refView_write (e : RefState) (s : Ptr) (d : Nat) (pts : List CoordZ) (i : Nat)
    (f : CoordZ → CoordZ) (h : refView e s = some (d, pts)) (hi : i < pts.length) :
    refView (e.write s i f) s = some (d, pts.modify f i) := by
  have hl := refView_eq e s d pts h
  unfold RefState.write
  rw [hl]
  simp only [if_pos hi]
  unfold refView
  rw [lookup_store e s _ _ hl]

theorem refView_read (e : RefState) (s : Ptr) (d : Nat) (pts : List CoordZ) (i : Nat)
    (p : CoordZ) (f : CoordZ → Float64) (h : refView e s = some (d, pts))
    (hp : pts[i]? = some p) : e.read s i f = (1, f p) := by
  have hl := refView_eq e s d pts h
  unfold RefState.read
  rw [hl]
  simp [hp]

theorem refEngine_storesWrites (flag : Int) : StoresWrites (refEngine flag) refView where
  create := by
    intro e n d _
    refine ⟨List.replicate n (CoordZ.mk Float64.zero Float64.zero Float64.zero), ?_, by simp⟩
    simp [refEngine, RefState.alloc, refView, RefState.lookup]
  getSize := by
    intro e s d pts h
    have hl := refView_eq e s d pts h
    simp [refEngine, hl]
  setX := by
    intro e s d pts i v h hi
    exact refView_write e s d pts i _ h hi
  setY := by
    intro e s d pts i v h hi
    exact refView_write e s d pts i _ h hi
  setZ := by
    intro e s d pts i v h _ hi
    exact refView_write e s d pts i _ h hi
  getX := by
    intro e s d pts i p h hp
    have := refView_read e s d pts i p CoordZ.X h hp
    simp only [refEngine]
    rw [this]
    exact ⟨one_ne_zero, rfl⟩
  getY := by
    intro e s d pts i p h hp
    have := refView_read e s d pts i p CoordZ.Y h hp
    simp only [refEngine]
    rw [this]
    exact ⟨one_ne_zero, rfl⟩
  getZ := by
    intro e s d pts i p h _ hp
    have := refView_read e s d pts i p CoordZ.Z h hp
    simp only [refEngine]
    rw [this]
    exact ⟨one_ne_zero, rfl⟩

/-- On the reference engine the loop of `coordSeqFromCoords` leaves a sequence of
no points as it is: every write is out of range. -/
theorem coordSeqFromCoordsLoop_empty (flag : Int) (s : coordSequence) (d : Nat)
    (cs : List Coord) :
    ∀ (i : Nat) (w : World RefState), w.eng.lookup s.c = some (Obj.seq d []) →
      ∃ w1, coordSeqFromCoordsLoop (refEngine flag) (some s) i cs w = Res.ok () w1 ∧
        w1.eng = w.eng := by
  induction cs with
  | nil => intro i w _; exact ⟨w, rfl, rfl⟩
  | cons c rest ih =>
    intro i w h
    have hw : ∀ (e : RefState) (k : Nat) (f : CoordZ → CoordZ),
        e.lookup s.c = some (Obj.seq d []) → e.write s.c k f = e := by
      intro e k f he
      simp [RefState.write, he]
    have hx : (s.setX (refEngine flag) (i : Int) c.X w).eng = w.eng := by
      show RefState.write w.eng s.c _ _ = w.eng
      exact hw _ _ _ h
    have hy : (s.setY (refEngine flag) (i : Int) c.Y
        (s.setX (refEngine flag) (i : Int) c.X w)).eng = w.eng := by
      show RefState.write (s.setX (refEngine flag) (i : Int) c.X w).eng s.c _ _ = w.eng
      rw [hx]
      exact hw _ _ _ h
    obtain ⟨w1, hrun, he⟩ := ih (i + 1) _ (by rw [hy]; exact h)
    refine ⟨w1, ?_, by rw [he, hy]⟩
    simp only [coordSeqFromCoordsLoop]
    exact hrun

/-- On the reference engine a list whose length truncates to `0` round-trips to
the empty list. -/
theorem roundTrip_truncated (cs : List Coord) (h0 : cUint (cs.length : Int) = 0) :
    roundTrip (refEngine 0) cs World.init = some [] := by
  have hcreate : createCoordSeq (refEngine 0) (cs.length : Int) 2 World.init =
      (some (coordSequence.mk 1),
        World.mk (RefState.mk [Obj.seq 2 []]) [Call.GEOSCoordSeq_create_r 0 2]
          [Finalizer.GEOSCoordSeq_destroy_r 1]) := by
    simp only [createCoordSeq, h0]
    rfl
  obtain ⟨w1, hrun, he⟩ := coordSeqFromCoordsLoop_empty 0 (coordSequence.mk 1) 2 cs 0
    (World.mk (RefState.mk [Obj.seq 2 []]) [Call.GEOSCoordSeq_create_r 0 2]
      [Finalizer.GEOSCoordSeq_destroy_r 1]) rfl
  have hfrom : coordSeqFromCoords (refEngine 0) cs World.init =
      Res.ok (some (coordSequence.mk 1)) w1 := by
    simp only [coordSeqFromCoords, hcreate, hrun]
  simp only [roundTrip, hfrom, Res.seq?]
  rw [toCoords_eq]
  have hs : ((coordSequence.mk 1).getSize (refEngine 0) w1).1 = 0 := by
    simp only [coordSequence.getSize, he]
    rfl
  rw [hs]
  rfl

/-- C10 as stated fails on the round trip: on the reference engine, which stores
every in-range write, a list of `2^32` coordinates gets a sequence of size
`C.uint(2^32) = 0`, the creation succeeds, and `toCoords` reads back the empty
list, not the list. -/
theorem roundTrip_length_truncated :
    StoresWrites (refEngine 0) refView ∧
    (createCoordSeq (refEngine 0)
      (((List.replicate 4294967296 (Coord.mk Float64.one Float64.one)).length : Nat) : Int) 2
      World.init).1 ≠ none ∧
    roundTrip (refEngine 0) (List.replicate 4294967296 (Coord.mk Float64.one Float64.one))
      World.init = some [] ∧
    (List.replicate 4294967296 (Coord.mk Float64.one Float64.one)).length = 4294967296 := by
  have hl : (List.replicate 4294967296 (Coord.mk Float64.one Float64.one)).length
      = 4294967296 := List.length_replicate _ _
  refine ⟨refEngine_storesWrites 0, ?_, ?_, hl⟩
  · rw [hl]
    decide
  · apply roundTrip_truncated
    rw [hl]
    exact cUint_two_pow_32

/-- C10, amended: for every coordinate sequence `s`, `toCoords(s)` is the list of
length `getSize(s)` whose `i`-th element is `Coord{getX(i), getY(i)}`, in
increasing index order, and `toCoordZs` likewise with `getZ`; and on an engine
that stores each in-range write, for every list of fewer than `2^32`
coordinates for which the sequence creation succeeds,
`toCoords(coordSeqFromCoords(cs))` is `cs`, and likewise
`toCoordZs(coordSeqFromCoordZs(czs))` is `czs`. -/
theorem toCoords_snapshot_and_roundTrip {σ : Type} (E : Engine σ)
    (s : coordSequence) (w : World σ) :
    (s.toCoords E w).1 = (List.range (s.getSize E w).1).map
      (fun (i : Nat) => Coord.mk (s.getX E (i : Int) w).1 (s.getY E (i : Int) w).1) ∧
    (s.toCoordZs E w).1 = (List.range (s.getSize E w).1).map
      (fun (i : Nat) => CoordZ.mk (s.getX E (i : Int) w).1 (s.getY E (i : Int) w).1
        (s.getZ E (i : Int) w).1) ∧
    ((s.toCoords E w).1.length = (s.getSize E w).1 ∧
      (s.toCoordZs E w).1.length = (s.getSize E w).1) ∧
    (∀ (view : σ → Ptr → Option (Nat × List CoordZ)), StoresWrites E view →
      ∀ (cs : List Coord), cs.length < 4294967296 →
        (createCoordSeq E (cs.length : Int) 2 w).1 ≠ none →
        roundTrip E cs w = some cs) ∧
    (∀ (view : σ → Ptr → Option (Nat × List CoordZ)), StoresWrites E view →
      ∀ (czs : List CoordZ), czs.length < 4294967296 →
        (createCoordSeq E (czs.length : Int) 3 w).1 ≠ none →
        roundTripZ E czs w = some czs) := by
  refine ⟨toCoords_eq E s w, toCoordZs_eq E s w, ⟨?_, ?_⟩, ?_, ?_⟩
  · rw [toCoords_eq]; simp
  · rw [toCoordZs_eq]; simp
  · intro view hS cs hlen hc
    exact roundTrip_eq E view hS cs w hlen hc
  · intro view hS czs hlen hc
    exact roundTripZ_eq E view hS czs w hlen hc

/-- C10, amended, on the reference engine: the square ring and its 3D lift round-trip,
and so does the empty list. -/
theorem toCoords_snapshot_and_roundTrip_witness :
    StoresWrites (refEngine 0) refView ∧
    (squareShell.length < 4294967296 ∧
      (createCoordSeq (refEngine 0) (squareShell.length : Int) 2 worldFive).1 ≠ none ∧
      (withZ squareShell).length < 4294967296 ∧
      (createCoordSeq (refEngine 0) ((withZ squareShell).length : Int) 3 worldFive).1 ≠ none) ∧
    roundTrip (refEngine 0) squareShell worldFive = some squareShell ∧
    roundTripZ (refEngine 0) (withZ squareShell) worldFive = some (withZ squareShell) ∧
    roundTrip (refEngine 0) [] worldFive = some [] :=
  ⟨refEngine_storesWrites 0, ⟨by decide, by decide, by decide, by decide⟩,
    (toCoords_snapshot_and_roundTrip (refEngine 0) (coordSequence.mk 1) worldFive).2.2.2.1
      refView (refEngine_storesWrites 0) squareShell (by decide) (by decide),
    (toCoords_snapshot_and_roundTrip (refEngine 0) (coordSequence.mk 1) worldFive).2.2.2.2
      refView (refEngine_storesWrites 0) (withZ squareShell) (by decide) (by decide),
    (toCoords_snapshot_and_roundTrip (refEngine 0) (coordSequence.mk 1) worldFive).2.2.2.1
      refView (refEngine_storesWrites 0) [] (by decide) (by decide)⟩

end Geos
